import Mathlib

/-!
Verification of the anylist-napi binding layer.

The repository binds the external `anylist_rs` crate (the "Service") to a
JavaScript runtime.  Two drafts of the binding exist:
`src/lib.rs` (the broad draft, namespace `Main` below) and
`native/src/lib.rs` (the narrow draft, namespace `Native` below).

The Service itself is an external collaborator: its behaviour is modelled
as an oracle (`Service`) whose fields give the response of each remote
operation.  Every asynchronous facade operation is embedded as a function
returning its result together with the list of Service calls it performed,
so that suspension-point counts and read/write atomicity are provable.
-/

/-- Status of an N-API error.  The binding only ever constructs
`GenericFailure` (both `Error::new(Status::GenericFailure, ..)` and
`Error::from_reason`). -/
inductive Status where
  | GenericFailure
  deriving DecidableEq, Repr

/-- An error of the external `anylist_rs` crate, abstracted to its rendered
diagnostic string. -/
structure AnyListError where
  msg : String
  deriving DecidableEq, Repr

/-- Rendering of an AnyList error, `format!("\x7b\x7d", err)`. -/
def errFormat (e : AnyListError) : String := e.msg

/-- An N-API `Error` value: a status plus a human-readable reason. -/
structure NapiError where
  status : Status
  message : String
  deriving DecidableEq, Repr

/-- `to_napi_error` from `src/lib.rs`: wrap the rendered AnyList error in a
`GenericFailure` N-API error, message verbatim. -/
def to_napi_error (err : AnyListError) : NapiError :=
  ⟨Status.GenericFailure, errFormat err⟩

/-- `napi::Error::from_reason`: an error with the given reason and
`GenericFailure` status. -/
def from_reason (reason : String) : NapiError :=
  ⟨Status.GenericFailure, reason⟩

/-! ## Service-side (anylist_rs) entity records

Fields are transcribed from the accessors the binding calls on each type. -/

/-- `anylist_rs::SavedTokens` (accessors `access_token`, `refresh_token`,
`user_id`, `is_premium_user`; constructor `new` in that argument order). -/
structure RsSavedTokens where
  access_token : String
  refresh_token : String
  user_id : String
  is_premium_user : Bool
  deriving DecidableEq, Repr

/-- `anylist_rs::ListItem` (accessors used by both drafts). -/
structure RsListItem where
  id : String
  list_id : String
  name : String
  details : String
  is_checked : Bool
  quantity : Option String
  category : Option String
  user_id : Option String
  product_upc : Option String
  deriving DecidableEq, Repr

/-- `anylist_rs::List`. -/
structure RsList where
  id : String
  name : String
  items : List RsListItem
  deriving DecidableEq, Repr

/-- `anylist_rs::Ingredient`. -/
structure RsIngredient where
  name : String
  quantity : Option String
  note : Option String
  deriving DecidableEq, Repr

/-- `Ingredient::new(name)`: an ingredient with no quantity and no note. -/
def RsIngredient.new (name : String) : RsIngredient :=
  ⟨name, none, none⟩

/-- `Ingredient::quantity_of`. -/
def RsIngredient.quantity_of (i : RsIngredient) (qty : String) : RsIngredient :=
  { i with quantity := some qty }

/-- `Ingredient::note_of`. -/
def RsIngredient.note_of (i : RsIngredient) (note : String) : RsIngredient :=
  { i with note := some note }

/-- `anylist_rs::Recipe`. -/
structure RsRecipe where
  id : String
  name : String
  ingredients : List RsIngredient
  preparation_steps : List String
  note : Option String
  source_name : Option String
  source_url : Option String
  servings : Option String
  prep_time : Option Int
  cook_time : Option Int
  rating : Option Int
  nutritional_info : Option String
  photo_id : Option String
  deriving DecidableEq, Repr

/-- `anylist_rs::Category`. -/
structure RsCategory where
  id : String
  name : String
  icon : Option String
  sort_index : Int
  deriving DecidableEq, Repr

/-- `anylist_rs::CategoryGroup`. -/
structure RsCategoryGroup where
  id : String
  name : String
  categories : List RsCategory
  deriving DecidableEq, Repr

/-- `anylist_rs::Store`. -/
structure RsStore where
  id : String
  name : String
  sort_index : Int
  deriving DecidableEq, Repr

/-- `anylist_rs::StoreFilter`. -/
structure RsStoreFilter where
  id : String
  name : String
  store_ids : List String
  deriving DecidableEq, Repr

/-- `anylist_rs::FavouriteItem`. -/
structure RsFavouriteItem where
  id : String
  list_id : String
  name : String
  quantity : Option String
  details : Option String
  category : Option String
  deriving DecidableEq, Repr

/-- `anylist_rs::FavouritesList`. -/
structure RsFavouritesList where
  id : String
  name : String
  items : List RsFavouriteItem
  shopping_list_id : Option String
  deriving DecidableEq, Repr

/-- `anylist_rs::MealPlanEvent`. -/
structure RsMealPlanEvent where
  id : String
  date : String
  title : Option String
  recipe_id : Option String
  label_id : Option String
  details : Option String
  deriving DecidableEq, Repr

/-- `anylist_rs::ICalendarInfo`. -/
structure RsICalendarInfo where
  enabled : Bool
  url : Option String
  token : Option String
  deriving DecidableEq, Repr

/-- `anylist_rs::RecipeCollection`. -/
structure RsRecipeCollection where
  id : String
  name : String
  recipe_ids : List String
  deriving DecidableEq, Repr

/-! ## The recipe builder

`RecipeBuilder` lives in the external `anylist_rs` crate; only its use sites
are in the repository.  Its record of fields mirrors `Recipe`; the setter
methods used by the binding are `with_*` below (source names: `ingredients`,
`preparation_steps`, `note`, `source_name`, `source_url`, `servings`,
`prep_time`, `cook_time`, `rating`, `nutritional_info`, `photo_id`). -/

/-- Pending recipe data accumulated by `anylist_rs::RecipeBuilder`.
`id = none` means the Service will assign a fresh id on save. -/
structure RecipeBuilder where
  id : Option String
  name : String
  ingredients : List RsIngredient
  preparation_steps : List String
  note : Option String
  source_name : Option String
  source_url : Option String
  servings : Option String
  prep_time : Option Int
  cook_time : Option Int
  rating : Option Int
  nutritional_info : Option String
  photo_id : Option String
  deriving DecidableEq, Repr

/-- `RecipeBuilder::new(name)`: a fresh builder with the given name, no id,
and every other field empty. -/
def RecipeBuilder.new (name : String) : RecipeBuilder :=
  ⟨none, name, [], [], none, none, none, none, none, none, none, none, none⟩

/-- Modelled from the spec: `RecipeBuilder::from(&existing)` is in the
external `anylist_rs` crate.  Per the spec of `update_recipe`, "the existing
record is fetched to preserve its id", the name is enforced "by reusing the
fetched name", and "absent optionals clear the field": the builder keeps the
existing recipe's id and name and leaves every other field at its empty
default, to be replaced from the options. -/
def RecipeBuilder.fromRecipe (existing : RsRecipe) : RecipeBuilder :=
  { RecipeBuilder.new existing.name with id := some existing.id }

/-- Builder setter for the ingredient list (source name `ingredients`). -/
def RecipeBuilder.with_ingredients (b : RecipeBuilder) (v : List RsIngredient) : RecipeBuilder :=
  { b with ingredients := v }

/-- Builder setter for the preparation steps (source name
`preparation_steps`). -/
def RecipeBuilder.with_preparation_steps (b : RecipeBuilder) (v : List String) : RecipeBuilder :=
  { b with preparation_steps := v }

/-- Builder setter for the note (source name `note`). -/
def RecipeBuilder.with_note (b : RecipeBuilder) (v : String) : RecipeBuilder :=
  { b with note := some v }

/-- Builder setter for the source name (source name `source_name`). -/
def RecipeBuilder.with_source_name (b : RecipeBuilder) (v : String) : RecipeBuilder :=
  { b with source_name := some v }

/-- Builder setter for the source URL (source name `source_url`). -/
def RecipeBuilder.with_source_url (b : RecipeBuilder) (v : String) : RecipeBuilder :=
  { b with source_url := some v }

/-- Builder setter for the servings (source name `servings`). -/
def RecipeBuilder.with_servings (b : RecipeBuilder) (v : String) : RecipeBuilder :=
  { b with servings := some v }

/-- Builder setter for the prep time (source name `prep_time`). -/
def RecipeBuilder.with_prep_time (b : RecipeBuilder) (v : Int) : RecipeBuilder :=
  { b with prep_time := some v }

/-- Builder setter for the cook time (source name `cook_time`). -/
def RecipeBuilder.with_cook_time (b : RecipeBuilder) (v : Int) : RecipeBuilder :=
  { b with cook_time := some v }

/-- Builder setter for the rating (source name `rating`). -/
def RecipeBuilder.with_rating (b : RecipeBuilder) (v : Int) : RecipeBuilder :=
  { b with rating := some v }

/-- Builder setter for the nutritional info (source name
`nutritional_info`). -/
def RecipeBuilder.with_nutritional_info (b : RecipeBuilder) (v : String) : RecipeBuilder :=
  { b with nutritional_info := some v }

/-- Builder setter for the photo id (source name `photo_id`). -/
def RecipeBuilder.with_photo_id (b : RecipeBuilder) (v : String) : RecipeBuilder :=
  { b with photo_id := some v }

/-- The recipe a saved builder denotes: the builder's fields, with the
Service-assigned `fresh` id when the builder carried none. -/
def RecipeBuilder.toRecipe (b : RecipeBuilder) (fresh : String) : RsRecipe :=
  ⟨b.id.getD fresh, b.name, b.ingredients, b.preparation_steps, b.note,
   b.source_name, b.source_url, b.servings, b.prep_time, b.cook_time,
   b.rating, b.nutritional_info, b.photo_id⟩

/-! ## The Service oracle and call traces -/

/-- One remote call to the AnyList Service, with its arguments.  Each
constructor corresponds to one `.await`ed `anylist_rs` operation (or, for
`saveRecipe`, to `RecipeBuilder::save`). -/
inductive SvcCall where
  | login (email password : String)
  | get_lists
  | create_list (name : String)
  | get_list_by_id (list_id : String)
  | get_list_by_name (name : String)
  | rename_list (list_id new_name : String)
  | add_item (list_id name : String)
  | add_item_with_details (list_id name : String)
      (quantity note category : Option String)
  | delete_item (list_id item_id : String)
  | cross_off_item (list_id item_id : String)
  | uncheck_item (list_id item_id : String)
  | update_item (list_id item_id name : String)
      (quantity note category : Option String)
  | bulk_delete_items (list_id : String) (item_ids : List String)
  | delete_all_crossed_off_items (list_id : String)
  | get_recipes
  | get_recipe_by_id (recipe_id : String)
  | get_recipe_by_name (name : String)
  | saveRecipe (builder : RecipeBuilder)
  | add_recipe_to_list (recipe_id list_id : String) (scale_factor : Option Float)
  | delete_recipe (recipe_id : String)
  | delete_list (list_id : String)
  | upload_photo (data : List UInt8) (filename : String)
  | create_category (list_id category_group_id name : String)
  | delete_category (list_id category_id : String)
  | rename_category (list_id category_group_id category_id new_name : String)
  | get_stores_for_list (list_id : String)
  | create_store (list_id name : String)
  | update_store (list_id store_id new_name : String)
  | get_store_filters_for_list (list_id : String)
  | delete_store (list_id store_id : String)
  | get_favourites
  | get_favourites_lists
  | get_favourites_for_list (shopping_list_id : String)
  | add_favourite (name : String) (category : Option String)
  | add_favourite_to_list (list_id name : String) (category : Option String)
  | remove_favourite (list_id item_id : String)
  | add_favourite_to_shopping_list (favourite : RsFavouriteItem)
      (shopping_list_id : String)
  | get_meal_plan_events (start_date end_date : String)
  | create_meal_plan_event (calendar_id date : String)
      (recipe_id title label_id : Option String)
  | update_meal_plan_event (calendar_id event_id date : String)
      (recipe_id title label_id : Option String)
  | delete_meal_plan_event (calendar_id event_id : String)
  | add_meal_plan_ingredients_to_list (list_id start_date end_date : String)
  | enable_icalendar
  | disable_icalendar
  | get_icalendar_url
  | get_recipe_collections
  | create_recipe_collection (name : String)
  | delete_recipe_collection (collection_id : String)
  | add_recipe_to_collection (collection_id recipe_id : String)
  | remove_recipe_from_collection (collection_id recipe_id : String)

/-- Whether a Service call mutates Service state.  The pure reads are the
`get_*` fetches; everything else creates, updates or deletes state (login is
classified as mutating since it establishes a session server-side). -/
def SvcCall.isMutation : SvcCall → Bool
  | .get_lists => false
  | .get_list_by_id _ => false
  | .get_list_by_name _ => false
  | .get_recipes => false
  | .get_recipe_by_id _ => false
  | .get_recipe_by_name _ => false
  | .get_stores_for_list _ => false
  | .get_store_filters_for_list _ => false
  | .get_favourites => false
  | .get_favourites_lists => false
  | .get_favourites_for_list _ => false
  | .get_meal_plan_events _ _ => false
  | .get_icalendar_url => false
  | .get_recipe_collections => false
  | _ => true

/-- Response oracle for the external AnyList Service: each field gives the
Service's response to the corresponding remote operation.  Mutators that
return nothing are represented by an `Option AnyListError` (an error, or
`none` for success); `saveRecipeErrR` likewise, the saved recipe itself
being determined by the builder (plus `freshRecipeIdR` when the Service
assigns the id). -/
structure Service where
  loginR : String → String → Except AnyListError RsSavedTokens
  get_listsR : Except AnyListError (List RsList)
  create_listR : String → Except AnyListError RsList
  get_list_by_idR : String → Except AnyListError RsList
  get_list_by_nameR : String → Except AnyListError RsList
  rename_listR : String → String → Option AnyListError
  add_itemR : String → String → Except AnyListError RsListItem
  add_item_with_detailsR : String → String → Option String → Option String →
    Option String → Except AnyListError RsListItem
  delete_itemR : String → String → Option AnyListError
  cross_off_itemR : String → String → Option AnyListError
  uncheck_itemR : String → String → Option AnyListError
  update_itemR : String → String → String → Option String → Option String →
    Option String → Option AnyListError
  bulk_delete_itemsR : String → List String → Option AnyListError
  delete_all_crossed_off_itemsR : String → Option AnyListError
  get_recipesR : Except AnyListError (List RsRecipe)
  get_recipe_by_idR : String → Except AnyListError RsRecipe
  get_recipe_by_nameR : String → Except AnyListError RsRecipe
  saveRecipeErrR : RecipeBuilder → Option AnyListError
  freshRecipeIdR : String
  add_recipe_to_listR : String → String → Option Float → Option AnyListError
  delete_recipeR : String → Option AnyListError
  delete_listR : String → Option AnyListError
  upload_photoR : List UInt8 → String → Except AnyListError String
  create_categoryR : String → String → String → Except AnyListError RsCategory
  delete_categoryR : String → String → Option AnyListError
  rename_categoryR : String → String → String → String → Option AnyListError
  get_stores_for_listR : String → Except AnyListError (List RsStore)
  create_storeR : String → String → Except AnyListError RsStore
  update_storeR : String → String → String → Option AnyListError
  get_store_filters_for_listR : String → Except AnyListError (List RsStoreFilter)
  delete_storeR : String → String → Option AnyListError
  get_favouritesR : Except AnyListError (List RsFavouriteItem)
  get_favourites_listsR : Except AnyListError (List RsFavouritesList)
  get_favourites_for_listR : String → Except AnyListError RsFavouritesList
  add_favouriteR : String → Option String → Except AnyListError RsFavouriteItem
  add_favourite_to_listR : String → String → Option String →
    Except AnyListError RsFavouriteItem
  remove_favouriteR : String → String → Option AnyListError
  add_favourite_to_shopping_listR : RsFavouriteItem → String →
    Except AnyListError RsListItem
  get_meal_plan_eventsR : String → String → Except AnyListError (List RsMealPlanEvent)
  create_meal_plan_eventR : String → String → Option String → Option String →
    Option String → Except AnyListError RsMealPlanEvent
  update_meal_plan_eventR : String → String → String → Option String →
    Option String → Option String → Option AnyListError
  delete_meal_plan_eventR : String → String → Option AnyListError
  add_meal_plan_ingredients_to_listR : String → String → String → Option AnyListError
  enable_icalendarR : Except AnyListError RsICalendarInfo
  disable_icalendarR : Option AnyListError
  get_icalendar_urlR : Except AnyListError (Option String)
  get_recipe_collectionsR : Except AnyListError (List RsRecipeCollection)
  create_recipe_collectionR : String → Except AnyListError RsRecipeCollection
  delete_recipe_collectionR : String → Option AnyListError
  add_recipe_to_collectionR : String → String → Option AnyListError
  remove_recipe_from_collectionR : String → String → Option AnyListError

/-- A Service on which every operation fails with the error `e`. -/
def Service.failing (e : AnyListError) : Service where
  loginR := fun _ _ => .error e
  get_listsR := .error e
  create_listR := fun _ => .error e
  get_list_by_idR := fun _ => .error e
  get_list_by_nameR := fun _ => .error e
  rename_listR := fun _ _ => some e
  add_itemR := fun _ _ => .error e
  add_item_with_detailsR := fun _ _ _ _ _ => .error e
  delete_itemR := fun _ _ => some e
  cross_off_itemR := fun _ _ => some e
  uncheck_itemR := fun _ _ => some e
  update_itemR := fun _ _ _ _ _ _ => some e
  bulk_delete_itemsR := fun _ _ => some e
  delete_all_crossed_off_itemsR := fun _ => some e
  get_recipesR := .error e
  get_recipe_by_idR := fun _ => .error e
  get_recipe_by_nameR := fun _ => .error e
  saveRecipeErrR := fun _ => some e
  freshRecipeIdR := ""
  add_recipe_to_listR := fun _ _ _ => some e
  delete_recipeR := fun _ => some e
  delete_listR := fun _ => some e
  upload_photoR := fun _ _ => .error e
  create_categoryR := fun _ _ _ => .error e
  delete_categoryR := fun _ _ => some e
  rename_categoryR := fun _ _ _ _ => some e
  get_stores_for_listR := fun _ => .error e
  create_storeR := fun _ _ => .error e
  update_storeR := fun _ _ _ => some e
  get_store_filters_for_listR := fun _ => .error e
  delete_storeR := fun _ _ => some e
  get_favouritesR := .error e
  get_favourites_listsR := .error e
  get_favourites_for_listR := fun _ => .error e
  add_favouriteR := fun _ _ => .error e
  add_favourite_to_listR := fun _ _ _ => .error e
  remove_favouriteR := fun _ _ => some e
  add_favourite_to_shopping_listR := fun _ _ => .error e
  get_meal_plan_eventsR := fun _ _ => .error e
  create_meal_plan_eventR := fun _ _ _ _ _ => .error e
  update_meal_plan_eventR := fun _ _ _ _ _ _ => some e
  delete_meal_plan_eventR := fun _ _ => some e
  add_meal_plan_ingredients_to_listR := fun _ _ _ => some e
  enable_icalendarR := .error e
  disable_icalendarR := some e
  get_icalendar_urlR := .error e
  get_recipe_collectionsR := .error e
  create_recipe_collectionR := fun _ => .error e
  delete_recipe_collectionR := fun _ => some e
  add_recipe_to_collectionR := fun _ _ => some e
  remove_recipe_from_collectionR := fun _ _ => some e

/-- `RecipeBuilder::save(&client)`: send the built recipe to the Service.
Modelled from the spec: on success the Service persists and returns the
rewritten recipe — the builder's fields, with a Service-assigned id when the
builder carries none ("Service assigns id"). -/
def RecipeBuilder.save (b : RecipeBuilder) (svc : Service) : Except AnyListError RsRecipe :=
  match svc.saveRecipeErrR b with
  | some e => .error e
  | none => .ok (b.toRecipe svc.freshRecipeIdR)

/-- Modelled from the spec: `anylist_rs::AnyListClient`, the session-holding
handle of the external crate.  It owns the session credentials; its remote
behaviour is the `Service` oracle it was built against.  `client_id` is the
"stable per-session client id string". -/
structure RsClient where
  tokens : RsSavedTokens
  client_id : String
  svc : Service

/-- Modelled from the spec: `anylist_rs::AnyListClient::from_tokens` —
"No network I/O required at construction; validity is deferred until first
operation": the handle simply stores the given tokens, unvalidated. -/
def RsClient.from_tokens (svc : Service) (tokens : RsSavedTokens) :
    Except AnyListError RsClient :=
  .ok ⟨tokens, "", svc⟩

/-- Modelled from the spec: `anylist_rs::AnyListClient::export_tokens` —
a "SavedTokens snapshot of current session". -/
def RsClient.export_tokens (c : RsClient) : Except AnyListError RsSavedTokens :=
  .ok c.tokens

/-- Modelled from the spec: `user_id()` is a synchronous local accessor. -/
def RsClient.user_id (c : RsClient) : String := c.tokens.user_id

/-- Modelled from the spec: `is_premium_user()` is a synchronous local
accessor. -/
def RsClient.is_premium_user (c : RsClient) : Bool := c.tokens.is_premium_user

/-- Modelled from the spec: `client_identifier()` is a synchronous accessor
of the per-session client id. -/
def RsClient.client_identifier (c : RsClient) : String := c.client_id

namespace Main

/-- `IngredientInput` (src/lib.rs): input for creating a new ingredient. -/
structure IngredientInput where
  name : String
  quantity : Option String
  note : Option String
  deriving DecidableEq, Repr

/-- `impl From<&IngredientInput> for RsIngredient` (src/lib.rs). -/
def IngredientInput.toRs (input : IngredientInput) : RsIngredient :=
  let ingredient := RsIngredient.new input.name
  let ingredient := match input.quantity with
    | some qty => ingredient.quantity_of qty
    | none => ingredient
  let ingredient := match input.note with
    | some note => ingredient.note_of note
    | none => ingredient
  ingredient

/-- `SavedTokens` (src/lib.rs): saved authentication tokens for resuming
sessions. -/
structure SavedTokens where
  user_id : String
  access_token : String
  refresh_token : String
  is_premium_user : Bool
  deriving DecidableEq, Repr

/-- `impl From<RsSavedTokens> for SavedTokens` (src/lib.rs). -/
def SavedTokens.fromRs (tokens : RsSavedTokens) : SavedTokens :=
  { user_id := tokens.user_id
    access_token := tokens.access_token
    refresh_token := tokens.refresh_token
    is_premium_user := tokens.is_premium_user }

/-- `impl From<SavedTokens> for RsSavedTokens` (src/lib.rs):
`RsSavedTokens::new(access_token, refresh_token, user_id, is_premium_user)`. -/
def SavedTokens.toRs (tokens : SavedTokens) : RsSavedTokens :=
  ⟨tokens.access_token, tokens.refresh_token, tokens.user_id,
   tokens.is_premium_user⟩

/-- `ListItem` (src/lib.rs): a grocery list item.  Note: `note` is a plain
string, not an optional, and there is no `list_id` field in this draft. -/
structure ListItem where
  id : String
  name : String
  checked : Bool
  note : String
  quantity : Option String
  category : Option String
  deriving DecidableEq, Repr

/-- `impl From<&RsListItem> for ListItem` (src/lib.rs): `note` is the item's
`details()` string taken verbatim. -/
def ListItem.fromRs (item : RsListItem) : ListItem :=
  { id := item.id
    name := item.name
    checked := item.is_checked
    quantity := item.quantity
    note := item.details
    category := item.category }

/-- `List` (src/lib.rs): a grocery list.  Named `JsList` here to avoid the
Lean core `List`. -/
structure JsList where
  id : String
  name : String
  items : List ListItem
  deriving DecidableEq, Repr

/-- `impl From<&RsList> for List` (src/lib.rs). -/
def JsList.fromRs (list : RsList) : JsList :=
  { id := list.id
    name := list.name
    items := list.items.map ListItem.fromRs }

/-- `Ingredient` (src/lib.rs): a recipe ingredient at the boundary. -/
structure Ingredient where
  name : String
  quantity : Option String
  note : Option String
  deriving DecidableEq, Repr

/-- `impl From<&RsIngredient> for Ingredient` (src/lib.rs). -/
def Ingredient.fromRs (ingredient : RsIngredient) : Ingredient :=
  { name := ingredient.name
    quantity := ingredient.quantity
    note := ingredient.note }

/-- `Recipe` (src/lib.rs). -/
structure Recipe where
  id : String
  name : String
  ingredients : List Ingredient
  preparation_steps : List String
  note : Option String
  source_name : Option String
  source_url : Option String
  servings : Option String
  prep_time : Option Int
  cook_time : Option Int
  rating : Option Int
  nutritional_info : Option String
  photo_id : Option String
  deriving DecidableEq, Repr

/-- `impl From<&RsRecipe> for Recipe` (src/lib.rs). -/
def Recipe.fromRs (recipe : RsRecipe) : Recipe :=
  { id := recipe.id
    name := recipe.name
    ingredients := recipe.ingredients.map Ingredient.fromRs
    preparation_steps := recipe.preparation_steps
    note := recipe.note
    source_name := recipe.source_name
    source_url := recipe.source_url
    servings := recipe.servings
    prep_time := recipe.prep_time
    cook_time := recipe.cook_time
    rating := recipe.rating
    nutritional_info := recipe.nutritional_info
    photo_id := recipe.photo_id }

/-- `Category` (src/lib.rs). -/
structure Category where
  id : String
  name : String
  icon : Option String
  sort_index : Int
  deriving DecidableEq, Repr

/-- `impl From<&RsCategory> for Category` (src/lib.rs). -/
def Category.fromRs (category : RsCategory) : Category :=
  { id := category.id
    name := category.name
    icon := category.icon
    sort_index := category.sort_index }

/-- `CategoryGroup` (src/lib.rs). -/
structure CategoryGroup where
  id : String
  name : String
  categories : List Category
  deriving DecidableEq, Repr

/-- `impl From<&RsCategoryGroup> for CategoryGroup` (src/lib.rs). -/
def CategoryGroup.fromRs (group : RsCategoryGroup) : CategoryGroup :=
  { id := group.id
    name := group.name
    categories := group.categories.map Category.fromRs }

/-- `Store` (src/lib.rs). -/
structure Store where
  id : String
  name : String
  sort_index : Int
  deriving DecidableEq, Repr

/-- `impl From<&RsStore> for Store` (src/lib.rs). -/
def Store.fromRs (store : RsStore) : Store :=
  { id := store.id
    name := store.name
    sort_index := store.sort_index }

/-- `StoreFilter` (src/lib.rs). -/
structure StoreFilter where
  id : String
  name : String
  store_ids : List String
  deriving DecidableEq, Repr

/-- `impl From<&RsStoreFilter> for StoreFilter` (src/lib.rs). -/
def StoreFilter.fromRs (filter : RsStoreFilter) : StoreFilter :=
  { id := filter.id
    name := filter.name
    store_ids := filter.store_ids }

/-- `FavouriteItem` (src/lib.rs). -/
structure FavouriteItem where
  id : String
  list_id : String
  name : String
  quantity : Option String
  details : Option String
  category : Option String
  deriving DecidableEq, Repr

/-- `impl From<&RsFavouriteItem> for FavouriteItem` (src/lib.rs). -/
def FavouriteItem.fromRs (item : RsFavouriteItem) : FavouriteItem :=
  { id := item.id
    list_id := item.list_id
    name := item.name
    quantity := item.quantity
    details := item.details
    category := item.category }

/-- `FavouritesList` (src/lib.rs). -/
structure FavouritesList where
  id : String
  name : String
  items : List FavouriteItem
  shopping_list_id : Option String
  deriving DecidableEq, Repr

/-- `impl From<&RsFavouritesList> for FavouritesList` (src/lib.rs). -/
def FavouritesList.fromRs (list : RsFavouritesList) : FavouritesList :=
  { id := list.id
    name := list.name
    items := list.items.map FavouriteItem.fromRs
    shopping_list_id := list.shopping_list_id }

/-- `MealPlanEvent` (src/lib.rs). -/
structure MealPlanEvent where
  id : String
  date : String
  title : Option String
  recipe_id : Option String
  label_id : Option String
  details : Option String
  deriving DecidableEq, Repr

/-- `impl From<&RsMealPlanEvent> for MealPlanEvent` (src/lib.rs). -/
def MealPlanEvent.fromRs (event : RsMealPlanEvent) : MealPlanEvent :=
  { id := event.id
    date := event.date
    title := event.title
    recipe_id := event.recipe_id
    label_id := event.label_id
    details := event.details }

/-- `ICalendarInfo` (src/lib.rs). -/
structure ICalendarInfo where
  enabled : Bool
  url : Option String
  token : Option String
  deriving DecidableEq, Repr

/-- `impl From<&RsICalendarInfo> for ICalendarInfo` (src/lib.rs). -/
def ICalendarInfo.fromRs (info : RsICalendarInfo) : ICalendarInfo :=
  { enabled := info.enabled
    url := info.url
    token := info.token }

/-- `RecipeCollection` (src/lib.rs). -/
structure RecipeCollection where
  id : String
  name : String
  recipe_ids : List String
  deriving DecidableEq, Repr

/-- `impl From<&RsRecipeCollection> for RecipeCollection` (src/lib.rs). -/
def RecipeCollection.fromRs (collection : RsRecipeCollection) : RecipeCollection :=
  { id := collection.id
    name := collection.name
    recipe_ids := collection.recipe_ids }

/-- `CreateRecipeOptions` (src/lib.rs). -/
structure CreateRecipeOptions where
  name : String
  ingredients : List IngredientInput
  preparation_steps : List String
  note : Option String
  source_name : Option String
  source_url : Option String
  servings : Option String
  prep_time : Option Int
  cook_time : Option Int
  rating : Option Int
  nutritional_info : Option String
  photo_id : Option String
  deriving DecidableEq, Repr

end Main

/-- Result of a facade operation: the N-API result and the list of Service
calls performed, in order.  The common success path
`map_err(to_napi_error)?` followed by a conversion of the output. -/
def svcConv {α β : Type} (r : Except AnyListError α) (conv : α → β)
    (c : SvcCall) : Except NapiError β × List SvcCall :=
  (match r with
   | .error e => .error (to_napi_error e)
   | .ok a => .ok (conv a),
   [c])

/-- As `svcConv`, for operations returning `()`. -/
def svcUnit (r : Option AnyListError) (c : SvcCall) :
    Except NapiError Unit × List SvcCall :=
  (match r with
   | some e => .error (to_napi_error e)
   | none => .ok (),
   [c])

namespace Main

/-- `AnyListClient` (src/lib.rs): the main client handle, owning the inner
`anylist_rs` client. -/
structure AnyListClient where
  inner : RsClient

/-- `AnyListClient::login` (src/lib.rs): one Service call, wrapping the
returned session in a new handle. -/
def AnyListClient.login (svc : Service) (email password : String) :
    Except NapiError AnyListClient × List SvcCall :=
  (match svc.loginR email password with
   | .error e => .error (to_napi_error e)
   | .ok tokens => .ok ⟨⟨tokens, "", svc⟩⟩,
   [.login email password])

/-- `AnyListClient::from_tokens` (src/lib.rs): synchronous, no Service
call; converts the tokens and builds the inner client from them. -/
def AnyListClient.from_tokens (svc : Service) (tokens : SavedTokens) :
    Except NapiError AnyListClient × List SvcCall :=
  (match RsClient.from_tokens svc tokens.toRs with
   | .error e => .error (to_napi_error e)
   | .ok client => .ok ⟨client⟩,
   [])

/-- `AnyListClient::get_tokens` (src/lib.rs): synchronous, no Service call;
exports the inner client's tokens and converts them. -/
def AnyListClient.get_tokens (self : AnyListClient) :
    Except NapiError SavedTokens × List SvcCall :=
  (match self.inner.export_tokens with
   | .error e => .error (to_napi_error e)
   | .ok tokens => .ok (SavedTokens.fromRs tokens),
   [])

/-- `AnyListClient::get_lists` (src/lib.rs). -/
def AnyListClient.get_lists (self : AnyListClient) :
    Except NapiError (List JsList) × List SvcCall :=
  svcConv self.inner.svc.get_listsR (fun lists => lists.map JsList.fromRs)
    .get_lists

/-- `AnyListClient::create_list` (src/lib.rs). -/
def AnyListClient.create_list (self : AnyListClient) (name : String) :
    Except NapiError JsList × List SvcCall :=
  svcConv (self.inner.svc.create_listR name) JsList.fromRs (.create_list name)

/-- `AnyListClient::get_list_by_id` (src/lib.rs). -/
def AnyListClient.get_list_by_id (self : AnyListClient) (list_id : String) :
    Except NapiError JsList × List SvcCall :=
  svcConv (self.inner.svc.get_list_by_idR list_id) JsList.fromRs
    (.get_list_by_id list_id)

/-- `AnyListClient::get_list_by_name` (src/lib.rs). -/
def AnyListClient.get_list_by_name (self : AnyListClient) (name : String) :
    Except NapiError JsList × List SvcCall :=
  svcConv (self.inner.svc.get_list_by_nameR name) JsList.fromRs
    (.get_list_by_name name)

/-- `AnyListClient::rename_list` (src/lib.rs). -/
def AnyListClient.rename_list (self : AnyListClient) (list_id new_name : String) :
    Except NapiError Unit × List SvcCall :=
  svcUnit (self.inner.svc.rename_listR list_id new_name)
    (.rename_list list_id new_name)

/-- `AnyListClient::add_item` (src/lib.rs). -/
def AnyListClient.add_item (self : AnyListClient) (list_id name : String) :
    Except NapiError ListItem × List SvcCall :=
  svcConv (self.inner.svc.add_itemR list_id name) ListItem.fromRs
    (.add_item list_id name)

/-- `AnyListClient::add_item_with_details` (src/lib.rs). -/
def AnyListClient.add_item_with_details (self : AnyListClient)
    (list_id name : String) (quantity note category : Option String) :
    Except NapiError ListItem × List SvcCall :=
  svcConv (self.inner.svc.add_item_with_detailsR list_id name quantity note category)
    ListItem.fromRs (.add_item_with_details list_id name quantity note category)

/-- `AnyListClient::delete_item` (src/lib.rs). -/
def AnyListClient.delete_item (self : AnyListClient) (list_id item_id : String) :
    Except NapiError Unit × List SvcCall :=
  svcUnit (self.inner.svc.delete_itemR list_id item_id)
    (.delete_item list_id item_id)

/-- `AnyListClient::cross_off_item` (src/lib.rs). -/
def AnyListClient.cross_off_item (self : AnyListClient) (list_id item_id : String) :
    Except NapiError Unit × List SvcCall :=
  svcUnit (self.inner.svc.cross_off_itemR list_id item_id)
    (.cross_off_item list_id item_id)

/-- `AnyListClient::uncheck_item` (src/lib.rs). -/
def AnyListClient.uncheck_item (self : AnyListClient) (list_id item_id : String) :
    Except NapiError Unit × List SvcCall :=
  svcUnit (self.inner.svc.uncheck_itemR list_id item_id)
    (.uncheck_item list_id item_id)

/-- `AnyListClient::update_item` (src/lib.rs). -/
def AnyListClient.update_item (self : AnyListClient) (list_id item_id name : String)
    (quantity note category : Option String) :
    Except NapiError Unit × List SvcCall :=
  svcUnit (self.inner.svc.update_itemR list_id item_id name quantity note category)
    (.update_item list_id item_id name quantity note category)

/-- `AnyListClient::bulk_delete_items` (src/lib.rs). -/
def AnyListClient.bulk_delete_items (self : AnyListClient) (list_id : String)
    (item_ids : List String) : Except NapiError Unit × List SvcCall :=
  svcUnit (self.inner.svc.bulk_delete_itemsR list_id item_ids)
    (.bulk_delete_items list_id item_ids)

/-- `AnyListClient::delete_all_crossed_off_items` (src/lib.rs). -/
def AnyListClient.delete_all_crossed_off_items (self : AnyListClient)
    (list_id : String) : Except NapiError Unit × List SvcCall :=
  svcUnit (self.inner.svc.delete_all_crossed_off_itemsR list_id)
    (.delete_all_crossed_off_items list_id)

/-- `AnyListClient::get_recipes` (src/lib.rs). -/
def AnyListClient.get_recipes (self : AnyListClient) :
    Except NapiError (List Recipe) × List SvcCall :=
  svcConv self.inner.svc.get_recipesR (fun recipes => recipes.map Recipe.fromRs)
    .get_recipes

/-- `AnyListClient::get_recipe_by_id` (src/lib.rs). -/
def AnyListClient.get_recipe_by_id (self : AnyListClient) (recipe_id : String) :
    Except NapiError Recipe × List SvcCall :=
  svcConv (self.inner.svc.get_recipe_by_idR recipe_id) Recipe.fromRs
    (.get_recipe_by_id recipe_id)

/-- `AnyListClient::get_recipe_by_name` (src/lib.rs). -/
def AnyListClient.get_recipe_by_name (self : AnyListClient) (name : String) :
    Except NapiError Recipe × List SvcCall :=
  svcConv (self.inner.svc.get_recipe_by_nameR name) Recipe.fromRs
    (.get_recipe_by_name name)

/-- One conditional setter statement of `create_recipe`/`update_recipe`
(src/lib.rs): `if let Some(note) = options.note` then apply the setter. -/
def applyNote (builder : RecipeBuilder) (o : Option String) : RecipeBuilder :=
  match o with
  | some note => builder.with_note note
  | none => builder

/-- Conditional application of the `source_name` setter (src/lib.rs). -/
def applySourceName (builder : RecipeBuilder) (o : Option String) : RecipeBuilder :=
  match o with
  | some source_name => builder.with_source_name source_name
  | none => builder

/-- Conditional application of the `source_url` setter (src/lib.rs). -/
def applySourceUrl (builder : RecipeBuilder) (o : Option String) : RecipeBuilder :=
  match o with
  | some source_url => builder.with_source_url source_url
  | none => builder

/-- Conditional application of the `servings` setter (src/lib.rs). -/
def applyServings (builder : RecipeBuilder) (o : Option String) : RecipeBuilder :=
  match o with
  | some servings => builder.with_servings servings
  | none => builder

/-- Conditional application of the `prep_time` setter (src/lib.rs). -/
def applyPrepTime (builder : RecipeBuilder) (o : Option Int) : RecipeBuilder :=
  match o with
  | some prep_time => builder.with_prep_time prep_time
  | none => builder

/-- Conditional application of the `cook_time` setter (src/lib.rs). -/
def applyCookTime (builder : RecipeBuilder) (o : Option Int) : RecipeBuilder :=
  match o with
  | some cook_time => builder.with_cook_time cook_time
  | none => builder

/-- Conditional application of the `rating` setter (src/lib.rs). -/
def applyRating (builder : RecipeBuilder) (o : Option Int) : RecipeBuilder :=
  match o with
  | some rating => builder.with_rating rating
  | none => builder

/-- Conditional application of the `nutritional_info` setter (src/lib.rs). -/
def applyNutritionalInfo (builder : RecipeBuilder) (o : Option String) : RecipeBuilder :=
  match o with
  | some nutritional_info => builder.with_nutritional_info nutritional_info
  | none => builder

/-- Conditional application of the `photo_id` setter (src/lib.rs). -/
def applyPhotoId (builder : RecipeBuilder) (o : Option String) : RecipeBuilder :=
  match o with
  | some photo_id => builder.with_photo_id photo_id
  | none => builder

/-- The conditional setter chain shared by `create_recipe` and
`update_recipe` (src/lib.rs repeats it verbatim in both): each present
optional of the options is applied to the builder, in source order. -/
def applyRecipeOptions (builder : RecipeBuilder) (options : CreateRecipeOptions) :
    RecipeBuilder :=
  let builder := applyNote builder options.note
  let builder := applySourceName builder options.source_name
  let builder := applySourceUrl builder options.source_url
  let builder := applyServings builder options.servings
  let builder := applyPrepTime builder options.prep_time
  let builder := applyCookTime builder options.cook_time
  let builder := applyRating builder options.rating
  let builder := applyNutritionalInfo builder options.nutritional_info
  let builder := applyPhotoId builder options.photo_id
  builder

/-- `AnyListClient::create_recipe` (src/lib.rs): build from
`RecipeBuilder::new(options.name)`, then one Service call (`save`). -/
def AnyListClient.create_recipe (self : AnyListClient)
    (options : CreateRecipeOptions) : Except NapiError Recipe × List SvcCall :=
  let rs_ingredients : List RsIngredient := options.ingredients.map IngredientInput.toRs
  let builder := ((RecipeBuilder.new options.name).with_ingredients
    rs_ingredients).with_preparation_steps options.preparation_steps
  let builder := applyRecipeOptions builder options
  svcConv (builder.save self.inner.svc) Recipe.fromRs (.saveRecipe builder)

/-- `AnyListClient::add_recipe_to_list` (src/lib.rs). -/
def AnyListClient.add_recipe_to_list (self : AnyListClient)
    (recipe_id list_id : String) (scale_factor : Option Float) :
    Except NapiError Unit × List SvcCall :=
  svcUnit (self.inner.svc.add_recipe_to_listR recipe_id list_id scale_factor)
    (.add_recipe_to_list recipe_id list_id scale_factor)

/-- `AnyListClient::update_recipe` (src/lib.rs): fetch the existing recipe
by id (first Service call), start the builder from it — preserving its id
and name, `options.name` being ignored — apply the options, then save
(second Service call). -/
def AnyListClient.update_recipe (self : AnyListClient) (recipe_id : String)
    (options : CreateRecipeOptions) : Except NapiError Recipe × List SvcCall :=
  match self.inner.svc.get_recipe_by_idR recipe_id with
  | .error e => (.error (to_napi_error e), [.get_recipe_by_id recipe_id])
  | .ok existing =>
      let rs_ingredients : List RsIngredient := options.ingredients.map IngredientInput.toRs
      let builder := ((RecipeBuilder.fromRecipe existing).with_ingredients
        rs_ingredients).with_preparation_steps options.preparation_steps
      let builder := applyRecipeOptions builder options
      (match builder.save self.inner.svc with
       | .error e => .error (to_napi_error e)
       | .ok recipe => .ok (Recipe.fromRs recipe),
       [.get_recipe_by_id recipe_id, .saveRecipe builder])

/-- `AnyListClient::delete_recipe` (src/lib.rs). -/
def AnyListClient.delete_recipe (self : AnyListClient) (recipe_id : String) :
    Except NapiError Unit × List SvcCall :=
  svcUnit (self.inner.svc.delete_recipeR recipe_id) (.delete_recipe recipe_id)

/-- `AnyListClient::delete_list` (src/lib.rs). -/
def AnyListClient.delete_list (self : AnyListClient) (list_id : String) :
    Except NapiError Unit × List SvcCall :=
  svcUnit (self.inner.svc.delete_listR list_id) (.delete_list list_id)

/-- `AnyListClient::upload_photo` (src/lib.rs). -/
def AnyListClient.upload_photo (self : AnyListClient) (data : List UInt8)
    (filename : String) : Except NapiError String × List SvcCall :=
  svcConv (self.inner.svc.upload_photoR data filename) id
    (.upload_photo data filename)

/-- `AnyListClient::create_category` (src/lib.rs). -/
def AnyListClient.create_category (self : AnyListClient)
    (list_id category_group_id name : String) :
    Except NapiError Category × List SvcCall :=
  svcConv (self.inner.svc.create_categoryR list_id category_group_id name)
    Category.fromRs (.create_category list_id category_group_id name)

/-- `AnyListClient::delete_category` (src/lib.rs). -/
def AnyListClient.delete_category (self : AnyListClient)
    (list_id category_id : String) : Except NapiError Unit × List SvcCall :=
  svcUnit (self.inner.svc.delete_categoryR list_id category_id)
    (.delete_category list_id category_id)

/-- `AnyListClient::rename_category` (src/lib.rs). -/
def AnyListClient.rename_category (self : AnyListClient)
    (list_id category_group_id category_id new_name : String) :
    Except NapiError Unit × List SvcCall :=
  svcUnit (self.inner.svc.rename_categoryR list_id category_group_id category_id new_name)
    (.rename_category list_id category_group_id category_id new_name)

/-- `AnyListClient::get_stores_for_list` (src/lib.rs). -/
def AnyListClient.get_stores_for_list (self : AnyListClient) (list_id : String) :
    Except NapiError (List Store) × List SvcCall :=
  svcConv (self.inner.svc.get_stores_for_listR list_id)
    (fun stores => stores.map Store.fromRs) (.get_stores_for_list list_id)

/-- `AnyListClient::create_store` (src/lib.rs). -/
def AnyListClient.create_store (self : AnyListClient) (list_id name : String) :
    Except NapiError Store × List SvcCall :=
  svcConv (self.inner.svc.create_storeR list_id name) Store.fromRs
    (.create_store list_id name)

/-- `AnyListClient::update_store` (src/lib.rs). -/
def AnyListClient.update_store (self : AnyListClient)
    (list_id store_id new_name : String) : Except NapiError Unit × List SvcCall :=
  svcUnit (self.inner.svc.update_storeR list_id store_id new_name)
    (.update_store list_id store_id new_name)

/-- `AnyListClient::get_store_filters_for_list` (src/lib.rs). -/
def AnyListClient.get_store_filters_for_list (self : AnyListClient)
    (list_id : String) : Except NapiError (List StoreFilter) × List SvcCall :=
  svcConv (self.inner.svc.get_store_filters_for_listR list_id)
    (fun filters => filters.map StoreFilter.fromRs)
    (.get_store_filters_for_list list_id)

/-- `AnyListClient::delete_store` (src/lib.rs). -/
def AnyListClient.delete_store (self : AnyListClient) (list_id store_id : String) :
    Except NapiError Unit × List SvcCall :=
  svcUnit (self.inner.svc.delete_storeR list_id store_id)
    (.delete_store list_id store_id)

/-- `AnyListClient::get_favourites` (src/lib.rs). -/
def AnyListClient.get_favourites (self : AnyListClient) :
    Except NapiError (List FavouriteItem) × List SvcCall :=
  svcConv self.inner.svc.get_favouritesR
    (fun favourites => favourites.map FavouriteItem.fromRs) .get_favourites

/-- `AnyListClient::get_favourites_lists` (src/lib.rs). -/
def AnyListClient.get_favourites_lists (self : AnyListClient) :
    Except NapiError (List FavouritesList) × List SvcCall :=
  svcConv self.inner.svc.get_favourites_listsR
    (fun lists => lists.map FavouritesList.fromRs) .get_favourites_lists

/-- `AnyListClient::get_favourites_for_list` (src/lib.rs). -/
def AnyListClient.get_favourites_for_list (self : AnyListClient)
    (shopping_list_id : String) : Except NapiError FavouritesList × List SvcCall :=
  svcConv (self.inner.svc.get_favourites_for_listR shopping_list_id)
    FavouritesList.fromRs (.get_favourites_for_list shopping_list_id)

/-- `AnyListClient::add_favourite` (src/lib.rs). -/
def AnyListClient.add_favourite (self : AnyListClient) (name : String)
    (category : Option String) : Except NapiError FavouriteItem × List SvcCall :=
  svcConv (self.inner.svc.add_favouriteR name category) FavouriteItem.fromRs
    (.add_favourite name category)

/-- `AnyListClient::add_favourite_to_list` (src/lib.rs). -/
def AnyListClient.add_favourite_to_list (self : AnyListClient)
    (list_id name : String) (category : Option String) :
    Except NapiError FavouriteItem × List SvcCall :=
  svcConv (self.inner.svc.add_favourite_to_listR list_id name category)
    FavouriteItem.fromRs (.add_favourite_to_list list_id name category)

/-- `AnyListClient::remove_favourite` (src/lib.rs). -/
def AnyListClient.remove_favourite (self : AnyListClient)
    (list_id item_id : String) : Except NapiError Unit × List SvcCall :=
  svcUnit (self.inner.svc.remove_favouriteR list_id item_id)
    (.remove_favourite list_id item_id)

/-- `AnyListClient::add_favourite_to_shopping_list` (src/lib.rs): fetch the
favourites list for `favourite_list_id` (first Service call), look up the
favourite by id locally (`find`), failing with the synthesized
"Favourite item not found" error when absent, else promote it with a second
Service call. -/
def AnyListClient.add_favourite_to_shopping_list (self : AnyListClient)
    (favourite_list_id favourite_id shopping_list_id : String) :
    Except NapiError ListItem × List SvcCall :=
  match self.inner.svc.get_favourites_for_listR favourite_list_id with
  | .error e => (.error (to_napi_error e), [.get_favourites_for_list favourite_list_id])
  | .ok favourites_list =>
      match favourites_list.items.find? (fun f => f.id == favourite_id) with
      | none =>
          (.error ⟨Status.GenericFailure, "Favourite item not found"⟩,
           [.get_favourites_for_list favourite_list_id])
      | some favourite =>
          (match self.inner.svc.add_favourite_to_shopping_listR favourite shopping_list_id with
           | .error e => .error (to_napi_error e)
           | .ok item => .ok (ListItem.fromRs item),
           [.get_favourites_for_list favourite_list_id,
            .add_favourite_to_shopping_list favourite shopping_list_id])

/-- `AnyListClient::get_meal_plan_events` (src/lib.rs). -/
def AnyListClient.get_meal_plan_events (self : AnyListClient)
    (start_date end_date : String) :
    Except NapiError (List MealPlanEvent) × List SvcCall :=
  svcConv (self.inner.svc.get_meal_plan_eventsR start_date end_date)
    (fun events => events.map MealPlanEvent.fromRs)
    (.get_meal_plan_events start_date end_date)

/-- `AnyListClient::create_meal_plan_event` (src/lib.rs). -/
def AnyListClient.create_meal_plan_event (self : AnyListClient)
    (calendar_id date : String) (recipe_id title label_id : Option String) :
    Except NapiError MealPlanEvent × List SvcCall :=
  svcConv (self.inner.svc.create_meal_plan_eventR calendar_id date recipe_id title label_id)
    MealPlanEvent.fromRs
    (.create_meal_plan_event calendar_id date recipe_id title label_id)

/-- `AnyListClient::update_meal_plan_event` (src/lib.rs). -/
def AnyListClient.update_meal_plan_event (self : AnyListClient)
    (calendar_id event_id date : String)
    (recipe_id title label_id : Option String) :
    Except NapiError Unit × List SvcCall :=
  svcUnit (self.inner.svc.update_meal_plan_eventR calendar_id event_id date recipe_id title label_id)
    (.update_meal_plan_event calendar_id event_id date recipe_id title label_id)

/-- `AnyListClient::delete_meal_plan_event` (src/lib.rs). -/
def AnyListClient.delete_meal_plan_event (self : AnyListClient)
    (calendar_id event_id : String) : Except NapiError Unit × List SvcCall :=
  svcUnit (self.inner.svc.delete_meal_plan_eventR calendar_id event_id)
    (.delete_meal_plan_event calendar_id event_id)

/-- `AnyListClient::add_meal_plan_ingredients_to_list` (src/lib.rs). -/
def AnyListClient.add_meal_plan_ingredients_to_list (self : AnyListClient)
    (list_id start_date end_date : String) :
    Except NapiError Unit × List SvcCall :=
  svcUnit (self.inner.svc.add_meal_plan_ingredients_to_listR list_id start_date end_date)
    (.add_meal_plan_ingredients_to_list list_id start_date end_date)

/-- `AnyListClient::enable_icalendar` (src/lib.rs). -/
def AnyListClient.enable_icalendar (self : AnyListClient) :
    Except NapiError ICalendarInfo × List SvcCall :=
  svcConv self.inner.svc.enable_icalendarR ICalendarInfo.fromRs .enable_icalendar

/-- `AnyListClient::disable_icalendar` (src/lib.rs). -/
def AnyListClient.disable_icalendar (self : AnyListClient) :
    Except NapiError Unit × List SvcCall :=
  svcUnit self.inner.svc.disable_icalendarR .disable_icalendar

/-- `AnyListClient::get_icalendar_url` (src/lib.rs). -/
def AnyListClient.get_icalendar_url (self : AnyListClient) :
    Except NapiError (Option String) × List SvcCall :=
  svcConv self.inner.svc.get_icalendar_urlR id .get_icalendar_url

/-- `AnyListClient::get_recipe_collections` (src/lib.rs). -/
def AnyListClient.get_recipe_collections (self : AnyListClient) :
    Except NapiError (List RecipeCollection) × List SvcCall :=
  svcConv self.inner.svc.get_recipe_collectionsR
    (fun collections => collections.map RecipeCollection.fromRs)
    .get_recipe_collections

/-- `AnyListClient::create_recipe_collection` (src/lib.rs). -/
def AnyListClient.create_recipe_collection (self : AnyListClient) (name : String) :
    Except NapiError RecipeCollection × List SvcCall :=
  svcConv (self.inner.svc.create_recipe_collectionR name) RecipeCollection.fromRs
    (.create_recipe_collection name)

/-- `AnyListClient::delete_recipe_collection` (src/lib.rs). -/
def AnyListClient.delete_recipe_collection (self : AnyListClient)
    (collection_id : String) : Except NapiError Unit × List SvcCall :=
  svcUnit (self.inner.svc.delete_recipe_collectionR collection_id)
    (.delete_recipe_collection collection_id)

/-- `AnyListClient::add_recipe_to_collection` (src/lib.rs). -/
def AnyListClient.add_recipe_to_collection (self : AnyListClient)
    (collection_id recipe_id : String) : Except NapiError Unit × List SvcCall :=
  svcUnit (self.inner.svc.add_recipe_to_collectionR collection_id recipe_id)
    (.add_recipe_to_collection collection_id recipe_id)

/-- `AnyListClient::remove_recipe_from_collection` (src/lib.rs). -/
def AnyListClient.remove_recipe_from_collection (self : AnyListClient)
    (collection_id recipe_id : String) : Except NapiError Unit × List SvcCall :=
  svcUnit (self.inner.svc.remove_recipe_from_collectionR collection_id recipe_id)
    (.remove_recipe_from_collection collection_id recipe_id)

end Main

namespace Native

/-- `SavedTokens` (native/src/lib.rs). -/
structure SavedTokens where
  access_token : String
  refresh_token : String
  user_id : String
  is_premium_user : Bool
  deriving DecidableEq, Repr

/-- `impl From<anylist_rs::SavedTokens> for SavedTokens`
(native/src/lib.rs). -/
def SavedTokens.fromRs (tokens : RsSavedTokens) : SavedTokens :=
  { access_token := tokens.access_token
    refresh_token := tokens.refresh_token
    user_id := tokens.user_id
    is_premium_user := tokens.is_premium_user }

/-- `impl From<SavedTokens> for anylist_rs::SavedTokens`
(native/src/lib.rs). -/
def SavedTokens.toRs (tokens : SavedTokens) : RsSavedTokens :=
  ⟨tokens.access_token, tokens.refresh_token, tokens.user_id,
   tokens.is_premium_user⟩

/-- `ListItem` (native/src/lib.rs): this draft carries `list_id`, and its
`details` field is a plain string, not an optional. -/
structure ListItem where
  id : String
  list_id : String
  name : String
  details : String
  is_checked : Bool
  quantity : Option String
  category : Option String
  user_id : Option String
  product_upc : Option String
  deriving DecidableEq, Repr

/-- `impl From<&anylist_rs::ListItem> for ListItem` (native/src/lib.rs):
every field is copied from the Service item, `list_id` included. -/
def ListItem.fromRs (item : RsListItem) : ListItem :=
  { id := item.id
    list_id := item.list_id
    name := item.name
    details := item.details
    is_checked := item.is_checked
    quantity := item.quantity
    category := item.category
    user_id := item.user_id
    product_upc := item.product_upc }

/-- `List` (native/src/lib.rs), named `JsList` to avoid the Lean core
`List`. -/
structure JsList where
  id : String
  name : String
  items : List ListItem
  deriving DecidableEq, Repr

/-- `impl From<&anylist_rs::List> for List` (native/src/lib.rs). -/
def JsList.fromRs (list : RsList) : JsList :=
  { id := list.id
    name := list.name
    items := list.items.map ListItem.fromRs }

/-- `AnyListClient` (native/src/lib.rs), holding `Arc<anylist_rs::AnyListClient>`. -/
structure AnyListClient where
  inner : RsClient

/-- Error mapping of the native draft:
`Error::from_reason(format!("<pfx>: ..", e))` — the rendered Service error
with a fixed disambiguation marker prepended. -/
def nconv {α β : Type} (pfx : String) (r : Except AnyListError α)
    (conv : α → β) (c : SvcCall) : Except NapiError β × List SvcCall :=
  (match r with
   | .error e => .error (from_reason (pfx ++ errFormat e))
   | .ok a => .ok (conv a),
   [c])

/-- `AnyListClient::login` (native/src/lib.rs): errors are prefixed with
"Login failed: ". -/
def AnyListClient.login (svc : Service) (email password : String) :
    Except NapiError AnyListClient × List SvcCall :=
  (match svc.loginR email password with
   | .error e => .error (from_reason ("Login failed: " ++ errFormat e))
   | .ok tokens => .ok ⟨⟨tokens, "", svc⟩⟩,
   [.login email password])

/-- `AnyListClient::from_tokens` (native/src/lib.rs): synchronous, no
Service call; errors are prefixed with
"Failed to create client from tokens: ". -/
def AnyListClient.from_tokens (svc : Service) (tokens : SavedTokens) :
    Except NapiError AnyListClient × List SvcCall :=
  (match RsClient.from_tokens svc tokens.toRs with
   | .error e =>
       .error (from_reason ("Failed to create client from tokens: " ++ errFormat e))
   | .ok client => .ok ⟨client⟩,
   [])

/-- `AnyListClient::export_tokens` (native/src/lib.rs): synchronous, no
Service call; errors are prefixed with "Failed to export tokens: ". -/
def AnyListClient.export_tokens (self : AnyListClient) :
    Except NapiError SavedTokens × List SvcCall :=
  (match self.inner.export_tokens with
   | .error e => .error (from_reason ("Failed to export tokens: " ++ errFormat e))
   | .ok tokens => .ok (SavedTokens.fromRs tokens),
   [])

/-- `AnyListClient::user_id` (native/src/lib.rs): synchronous accessor. -/
def AnyListClient.user_id (self : AnyListClient) : String :=
  self.inner.user_id

/-- `AnyListClient::is_premium_user` (native/src/lib.rs): synchronous
accessor. -/
def AnyListClient.is_premium_user (self : AnyListClient) : Bool :=
  self.inner.is_premium_user

/-- `AnyListClient::client_identifier` (native/src/lib.rs): synchronous
accessor. -/
def AnyListClient.client_identifier (self : AnyListClient) : String :=
  self.inner.client_identifier

/-- `AnyListClient::get_lists` (native/src/lib.rs). -/
def AnyListClient.get_lists (self : AnyListClient) :
    Except NapiError (List JsList) × List SvcCall :=
  nconv "Failed to get lists: " self.inner.svc.get_listsR
    (fun lists => lists.map JsList.fromRs) .get_lists

/-- `AnyListClient::create_list` (native/src/lib.rs). -/
def AnyListClient.create_list (self : AnyListClient) (name : String) :
    Except NapiError JsList × List SvcCall :=
  nconv "Failed to create list: " (self.inner.svc.create_listR name)
    JsList.fromRs (.create_list name)

/-- `AnyListClient::add_item` (native/src/lib.rs). -/
def AnyListClient.add_item (self : AnyListClient) (list_id name : String) :
    Except NapiError ListItem × List SvcCall :=
  nconv "Failed to add item: " (self.inner.svc.add_itemR list_id name)
    ListItem.fromRs (.add_item list_id name)

/-- `AnyListClient::add_item_with_details` (native/src/lib.rs). -/
def AnyListClient.add_item_with_details (self : AnyListClient)
    (list_id name : String) (quantity details category : Option String) :
    Except NapiError ListItem × List SvcCall :=
  nconv "Failed to add item: "
    (self.inner.svc.add_item_with_detailsR list_id name quantity details category)
    ListItem.fromRs (.add_item_with_details list_id name quantity details category)

end Native

/-! ## Concrete sample data used by witnesses and counterexamples -/

/-- A sample Service error. -/
def demoErr : AnyListError := ⟨"boom"⟩

/-- Sample session tokens. -/
def demoRsTokens : RsSavedTokens := ⟨"acc", "ref", "user1", true⟩

/-- Sample Service-side list item, belonging to list `l1`. -/
def demoRsItem : RsListItem :=
  ⟨"i1", "l1", "Milk", "", false, some "1 gal", some "Dairy", none, none⟩

/-- Sample Service-side list holding `demoRsItem`. -/
def demoRsList : RsList := ⟨"l1", "Groceries", [demoRsItem]⟩

/-- Sample Service-side favourite item in favourites list `fl1`. -/
def demoRsFavourite : RsFavouriteItem :=
  ⟨"f1", "fl1", "Eggs", none, none, some "Dairy"⟩

/-- Sample Service-side favourites list holding `demoRsFavourite`. -/
def demoRsFavouritesList : RsFavouritesList :=
  ⟨"fl1", "Starter", [demoRsFavourite], some "l1"⟩

/-- Sample Service-side recipe, id `r1`. -/
def demoRsRecipe : RsRecipe :=
  ⟨"r1", "Pancakes", [⟨"Flour", some "2 cups", none⟩], ["Mix", "Cook"],
   some "old note", some "old src", none, some "4", some 10, some 20, some 4,
   none, some "old photo"⟩

/-- Sample recipe options whose name differs from the existing recipe's and
whose optionals are mostly absent. -/
def demoOptions : Main.CreateRecipeOptions :=
  ⟨"Ignored", [⟨"Flour", some "2 cups", none⟩], ["Mix"], some "n", none, none,
   none, none, none, none, none, none⟩

/-- A Service on which the demo reads succeed with the sample data and every
recipe save succeeds; all other operations fail with `demoErr`. -/
def svcDemo : Service :=
  { Service.failing demoErr with
    get_listsR := .ok [demoRsList]
    get_recipe_by_idR := fun _ => .ok demoRsRecipe
    saveRecipeErrR := fun _ => none
    freshRecipeIdR := "fresh1"
    get_favourites_for_listR := fun _ => .ok demoRsFavouritesList
    add_favourite_to_shopping_listR := fun _ _ => .ok demoRsItem }

/-- A Main-draft client over the demo Service. -/
def demoMainClient : Main.AnyListClient := ⟨⟨demoRsTokens, "", svcDemo⟩⟩

/-- A Native-draft client over the demo Service. -/
def demoNativeClient : Native.AnyListClient := ⟨⟨demoRsTokens, "", svcDemo⟩⟩

/-- The recipe `update_recipe demoMainClient "r1" demoOptions` returns: the
existing id and name, the options' other fields, absent optionals cleared. -/
def demoUpdatedRecipe : Main.Recipe :=
  ⟨"r1", "Pancakes", [⟨"Flour", some "2 cups", none⟩], ["Mix"], some "n",
   none, none, none, none, none, none, none, none⟩

/-! ## Field-optionality tables

Each table transcribes, from the corresponding `struct` declaration in the
source, the field names of the boundary record paired with whether the
field's type is an `Option`. -/

/-- Fields of `ListItem` in src/lib.rs: `note: String` is NOT optional. -/
def mainListItemFieldOptional : List (String × Bool) :=
  [("id", false), ("name", false), ("checked", false), ("note", false),
   ("quantity", true), ("category", true)]

/-- Fields of `ListItem` in native/src/lib.rs: `details: String` is NOT
optional. -/
def nativeListItemFieldOptional : List (String × Bool) :=
  [("id", false), ("list_id", false), ("name", false), ("details", false),
   ("is_checked", false), ("quantity", true), ("category", true),
   ("user_id", true), ("product_upc", true)]

/-- Fields of `FavouriteItem` in src/lib.rs: here `details` IS optional. -/
def mainFavouriteItemFieldOptional : List (String × Bool) :=
  [("id", false), ("list_id", false), ("name", false), ("quantity", true),
   ("details", true), ("category", true)]

/-- The builder `update_recipe` saves, as a function of the fetched recipe
and the options (src/lib.rs lines building from `RecipeBuilder::from`). -/
def updateBuilder (existing : RsRecipe) (options : Main.CreateRecipeOptions) :
    RecipeBuilder :=
  Main.applyRecipeOptions
    (((RecipeBuilder.fromRecipe existing).with_ingredients
        (options.ingredients.map Main.IngredientInput.toRs)).with_preparation_steps
      options.preparation_steps) options

/-- A Main-draft client over a Service on which everything fails with `e`. -/
def failingMainClient (e : AnyListError) : Main.AnyListClient :=
  ⟨⟨demoRsTokens, "", Service.failing e⟩⟩

/-- A Native-draft client over a Service on which everything fails with
`e`. -/
def failingNativeClient (e : AnyListError) : Native.AnyListClient :=
  ⟨⟨demoRsTokens, "", Service.failing e⟩⟩

/-! ## Helper lemmas -/

/-- One conditional note step as a record update. -/
theorem applyNote_eq (b : RecipeBuilder) (o : Option String) :
    Main.applyNote b o = { b with note := o.or b.note } := by
  cases o <;> rfl

/-- One conditional source-name step as a record update. -/
theorem applySourceName_eq (b : RecipeBuilder) (o : Option String) :
    Main.applySourceName b o = { b with source_name := o.or b.source_name } := by
  cases o <;> rfl

/-- One conditional source-url step as a record update. -/
theorem applySourceUrl_eq (b : RecipeBuilder) (o : Option String) :
    Main.applySourceUrl b o = { b with source_url := o.or b.source_url } := by
  cases o <;> rfl

/-- One conditional servings step as a record update. -/
theorem applyServings_eq (b : RecipeBuilder) (o : Option String) :
    Main.applyServings b o = { b with servings := o.or b.servings } := by
  cases o <;> rfl

/-- One conditional prep-time step as a record update. -/
theorem applyPrepTime_eq (b : RecipeBuilder) (o : Option Int) :
    Main.applyPrepTime b o = { b with prep_time := o.or b.prep_time } := by
  cases o <;> rfl

/-- One conditional cook-time step as a record update. -/
theorem applyCookTime_eq (b : RecipeBuilder) (o : Option Int) :
    Main.applyCookTime b o = { b with cook_time := o.or b.cook_time } := by
  cases o <;> rfl

/-- One conditional rating step as a record update. -/
theorem applyRating_eq (b : RecipeBuilder) (o : Option Int) :
    Main.applyRating b o = { b with rating := o.or b.rating } := by
  cases o <;> rfl

/-- One conditional nutritional-info step as a record update. -/
theorem applyNutritionalInfo_eq (b : RecipeBuilder) (o : Option String) :
    Main.applyNutritionalInfo b o = { b with nutritional_info := o.or b.nutritional_info } := by
  cases o <;> rfl

/-- One conditional photo-id step as a record update. -/
theorem applyPhotoId_eq (b : RecipeBuilder) (o : Option String) :
    Main.applyPhotoId b o = { b with photo_id := o.or b.photo_id } := by
  cases o <;> rfl

/-- The conditional setter chain of `create_recipe`/`update_recipe` in one
equation: each optional of the options overrides the builder's field when
present and leaves it unchanged when absent; id, name, ingredients and
preparation steps are untouched. -/
theorem applyRecipeOptions_eq (b : RecipeBuilder) (o : Main.CreateRecipeOptions) :
    Main.applyRecipeOptions b o =
      { b with
        note := o.note.or b.note
        source_name := o.source_name.or b.source_name
        source_url := o.source_url.or b.source_url
        servings := o.servings.or b.servings
        prep_time := o.prep_time.or b.prep_time
        cook_time := o.cook_time.or b.cook_time
        rating := o.rating.or b.rating
        nutritional_info := o.nutritional_info.or b.nutritional_info
        photo_id := o.photo_id.or b.photo_id } := by
  unfold Main.applyRecipeOptions
  simp only [applyNote_eq, applySourceName_eq, applySourceUrl_eq,
    applyServings_eq, applyPrepTime_eq, applyCookTime_eq, applyRating_eq,
    applyNutritionalInfo_eq, applyPhotoId_eq]

/-- Shared computation: when the fetched favourites list does not contain
the requested favourite id, `add_favourite_to_shopping_list` returns the
synthesized not-found error after the single read call. -/
theorem add_fav_not_found_eq (self : Main.AnyListClient)
    (favourite_list_id favourite_id shopping_list_id : String)
    (fl : RsFavouritesList)
    (hget : self.inner.svc.get_favourites_for_listR favourite_list_id = .ok fl)
    (habsent : ∀ f ∈ fl.items, f.id ≠ favourite_id) :
    self.add_favourite_to_shopping_list favourite_list_id favourite_id shopping_list_id
      = (.error ⟨Status.GenericFailure, "Favourite item not found"⟩,
         [SvcCall.get_favourites_for_list favourite_list_id]) := by
  have hfind : fl.items.find? (fun f => f.id == favourite_id) = none := by
    rw [List.find?_eq_none]
    intro f hf
    simpa using habsent f hf
  unfold Main.AnyListClient.add_favourite_to_shopping_list
  rw [hget]
  simp only [hfind]

/-! ## Claims -/

/-- C1: for every call `add_favourite_to_shopping_list(favourite_list_id,
favourite_id, shopping_list_id)`, if `favourite_id` is not the id of any
item in the favourites list fetched for `favourite_list_id`, the operation
fails with the facade-synthesized not-found error carrying the literal
message "Favourite item not found"; the membership lookup is performed by
the facade itself (the trace holds only the fetch, no Service lookup or
mutation). -/
theorem C1_add_favourite_not_found (self : Main.AnyListClient)
    (favourite_list_id favourite_id shopping_list_id : String)
    (fl : RsFavouritesList)
    (hget : self.inner.svc.get_favourites_for_listR favourite_list_id = .ok fl)
    (habsent : ∀ f ∈ fl.items, f.id ≠ favourite_id) :
    self.add_favourite_to_shopping_list favourite_list_id favourite_id shopping_list_id
      = (.error ⟨Status.GenericFailure, "Favourite item not found"⟩,
         [SvcCall.get_favourites_for_list favourite_list_id]) :=
  add_fav_not_found_eq self favourite_list_id favourite_id shopping_list_id fl
    hget habsent

/-- C1 witness: the demo favourites list has no item with id "nope", and the
promotion fails with the literal not-found message after the single read. -/
theorem C1_add_favourite_not_found_witness :
    (demoMainClient.inner.svc.get_favourites_for_listR "fl1"
      = .ok demoRsFavouritesList) ∧
    (∀ f ∈ demoRsFavouritesList.items, f.id ≠ "nope") ∧
    Main.AnyListClient.add_favourite_to_shopping_list demoMainClient "fl1" "nope" "l1"
      = (.error ⟨Status.GenericFailure, "Favourite item not found"⟩,
         [SvcCall.get_favourites_for_list "fl1"]) :=
  ⟨rfl, by decide,
   C1_add_favourite_not_found demoMainClient "fl1" "nope" "l1"
     demoRsFavouritesList rfl (by decide)⟩

/-- C10: when `add_favourite_to_shopping_list` fails because the favourite
id is absent from the fetched favourites list, the only Service call made
is the read `get_favourites_for_list`; no mutating Service operation is
invoked, so Service state is unchanged by the failed call. -/
theorem C10_not_found_path_read_only (self : Main.AnyListClient)
    (favourite_list_id favourite_id shopping_list_id : String)
    (fl : RsFavouritesList)
    (hget : self.inner.svc.get_favourites_for_listR favourite_list_id = .ok fl)
    (habsent : ∀ f ∈ fl.items, f.id ≠ favourite_id) :
    (self.add_favourite_to_shopping_list favourite_list_id favourite_id shopping_list_id).2
      = [SvcCall.get_favourites_for_list favourite_list_id] ∧
    ∀ call ∈ (self.add_favourite_to_shopping_list favourite_list_id favourite_id
        shopping_list_id).2, call.isMutation = false := by
  have h := add_fav_not_found_eq self favourite_list_id favourite_id
    shopping_list_id fl hget habsent
  rw [h]
  refine ⟨rfl, ?_⟩
  intro call hc
  simp only [List.mem_singleton] at hc
  subst hc
  rfl

/-- C10 witness: the demo failed promotion performed exactly the one read
call, and that call is not a mutation. -/
theorem C10_not_found_path_read_only_witness :
    (demoMainClient.inner.svc.get_favourites_for_listR "fl1"
      = .ok demoRsFavouritesList) ∧
    (∀ f ∈ demoRsFavouritesList.items, f.id ≠ "nope") ∧
    ((Main.AnyListClient.add_favourite_to_shopping_list demoMainClient "fl1" "nope" "l1").2
      = [SvcCall.get_favourites_for_list "fl1"] ∧
     ∀ call ∈ (Main.AnyListClient.add_favourite_to_shopping_list demoMainClient
        "fl1" "nope" "l1").2, call.isMutation = false) :=
  ⟨rfl, by decide,
   C10_not_found_path_read_only demoMainClient "fl1" "nope" "l1"
     demoRsFavouritesList rfl (by decide)⟩

/-- C2: the token round-trip is the identity: re-ingesting `get_tokens`
(resp. `export_tokens`) through `from_tokens` and exporting again yields
the same SavedTokens record, hence the same four fields; moreover the two
pure conversions compose to the identity in both directions, in both
drafts. -/
theorem C2_token_round_trip (self : Main.AnyListClient)
    (ns : Native.AnyListClient) :
    ((self.get_tokens).1.bind fun t =>
        ((Main.AnyListClient.from_tokens self.inner.svc t).1.bind fun c2 =>
          (c2.get_tokens).1)) = (self.get_tokens).1 ∧
    ((ns.export_tokens).1.bind fun t =>
        ((Native.AnyListClient.from_tokens ns.inner.svc t).1.bind fun c2 =>
          (c2.export_tokens).1)) = (ns.export_tokens).1 ∧
    (∀ rs : RsSavedTokens, (Main.SavedTokens.fromRs rs).toRs = rs) ∧
    (∀ t : Main.SavedTokens, Main.SavedTokens.fromRs t.toRs = t) ∧
    (∀ rs : RsSavedTokens, (Native.SavedTokens.fromRs rs).toRs = rs) ∧
    (∀ t : Native.SavedTokens, Native.SavedTokens.fromRs t.toRs = t) :=
  ⟨rfl, rfl, fun _ => rfl, fun _ => rfl, fun _ => rfl, fun _ => rfl⟩

/-- C8: `from_tokens` is synchronous and performs no Service call: its call
trace is empty, it succeeds immediately, and the handle it returns holds
exactly the given tokens, unvalidated, in both drafts. -/
theorem C8_from_tokens_synchronous (svc : Service) (t : Main.SavedTokens)
    (nt : Native.SavedTokens) :
    (Main.AnyListClient.from_tokens svc t).2 = [] ∧
    (Main.AnyListClient.from_tokens svc t).1 = .ok ⟨⟨t.toRs, "", svc⟩⟩ ∧
    (Native.AnyListClient.from_tokens svc nt).2 = [] ∧
    (Native.AnyListClient.from_tokens svc nt).1 = .ok ⟨⟨nt.toRs, "", svc⟩⟩ :=
  ⟨rfl, rfl, rfl, rfl⟩

/-- `Option.or` with an empty fallback is the identity. -/
theorem option_or_none {α : Type} (o : Option α) : o.or none = o := by
  cases o <;> rfl

/-- The update builder in closed form: the fetched recipe's id and name,
every other field taken from the options (absent optionals staying empty). -/
theorem updateBuilder_eq (existing : RsRecipe) (options : Main.CreateRecipeOptions) :
    updateBuilder existing options =
      ⟨some existing.id, existing.name,
       options.ingredients.map Main.IngredientInput.toRs,
       options.preparation_steps, options.note, options.source_name,
       options.source_url, options.servings, options.prep_time,
       options.cook_time, options.rating, options.nutritional_info,
       options.photo_id⟩ := by
  unfold updateBuilder
  rw [applyRecipeOptions_eq]
  simp only [RecipeBuilder.with_preparation_steps, RecipeBuilder.with_ingredients,
    RecipeBuilder.fromRecipe, RecipeBuilder.new, option_or_none]

/-- Under a successful fetch, `update_recipe` is the save of the update
builder, its trace being the fetch followed by the save. -/
theorem update_recipe_eq (self : Main.AnyListClient) (recipe_id : String)
    (options : Main.CreateRecipeOptions) (existing : RsRecipe)
    (hget : self.inner.svc.get_recipe_by_idR recipe_id = .ok existing) :
    self.update_recipe recipe_id options
      = (match (updateBuilder existing options).save self.inner.svc with
         | .error e => .error (to_napi_error e)
         | .ok recipe => .ok (Main.Recipe.fromRs recipe),
         [SvcCall.get_recipe_by_id recipe_id,
          SvcCall.saveRecipe (updateBuilder existing options)]) := by
  unfold Main.AnyListClient.update_recipe updateBuilder
  rw [hget]

/-- A successful `save` returns exactly the builder's recipe with the
Service-assigned fresh id as fallback. -/
theorem save_ok_eq (b : RecipeBuilder) (svc : Service) (r : RsRecipe)
    (h : b.save svc = .ok r) : r = b.toRecipe svc.freshRecipeIdR := by
  unfold RecipeBuilder.save at h
  cases herr : svc.saveRecipeErrR b <;> rw [herr] at h
  · exact (Except.ok.inj h).symm
  · exact Except.noConfusion h

/-- A successful `update_recipe` returns the conversion of the update
builder's recipe. -/
theorem update_recipe_ok_eq (self : Main.AnyListClient) (recipe_id : String)
    (options : Main.CreateRecipeOptions) (existing : RsRecipe) (r : Main.Recipe)
    (hget : self.inner.svc.get_recipe_by_idR recipe_id = .ok existing)
    (hok : (self.update_recipe recipe_id options).1 = .ok r) :
    r = Main.Recipe.fromRs
      ((updateBuilder existing options).toRecipe self.inner.svc.freshRecipeIdR) := by
  rw [update_recipe_eq self recipe_id options existing hget] at hok
  cases hsave : (updateBuilder existing options).save self.inner.svc with
  | error e =>
      rw [hsave] at hok
      have h2 : Except.error (to_napi_error e) = Except.ok r := hok
      exact Except.noConfusion h2
  | ok recipe =>
      rw [hsave] at hok
      have h2 : Except.ok (Main.Recipe.fromRs recipe) = Except.ok r := hok
      rw [← Except.ok.inj h2, save_ok_eq _ _ _ hsave]

/-- Under a successful fetch, the `update_recipe` trace is exactly the
fetch followed by the save of the update builder. -/
theorem update_recipe_trace_eq (self : Main.AnyListClient) (recipe_id : String)
    (options : Main.CreateRecipeOptions) (existing : RsRecipe)
    (hget : self.inner.svc.get_recipe_by_idR recipe_id = .ok existing) :
    (self.update_recipe recipe_id options).2
      = [SvcCall.get_recipe_by_id recipe_id,
         SvcCall.saveRecipe (updateBuilder existing options)] := by
  rw [update_recipe_eq self recipe_id options existing hget]

/-- C3: `update_recipe` first fetches the existing recipe by id, and the
recipe it writes back (the saved builder) and the recipe it returns both
carry the fetched recipe's id and the fetched recipe's name, whatever
`options.name` says. -/
theorem C3_update_recipe_preserves_identity (self : Main.AnyListClient)
    (recipe_id : String) (options : Main.CreateRecipeOptions)
    (existing : RsRecipe) (r : Main.Recipe)
    (hget : self.inner.svc.get_recipe_by_idR recipe_id = .ok existing)
    (hok : (self.update_recipe recipe_id options).1 = .ok r) :
    r.id = existing.id ∧ r.name = existing.name ∧
    (self.update_recipe recipe_id options).2.head?
      = some (SvcCall.get_recipe_by_id recipe_id) ∧
    ∀ b, SvcCall.saveRecipe b ∈ (self.update_recipe recipe_id options).2 →
      b.id = some existing.id ∧ b.name = existing.name := by
  have hr := update_recipe_ok_eq self recipe_id options existing r hget hok
  have ht := update_recipe_trace_eq self recipe_id options existing hget
  subst hr
  rw [updateBuilder_eq]
  refine ⟨rfl, rfl, ?_, ?_⟩
  · rw [ht]
    rfl
  · rw [ht]
    intro b hb
    simp only [List.mem_cons, List.mem_singleton] at hb
    rcases hb with hb | hb | hb
    · exact SvcCall.noConfusion hb
    · have hbb := SvcCall.saveRecipe.inj hb
      rw [hbb, updateBuilder_eq]
      exact ⟨rfl, rfl⟩
    · exact absurd hb (List.not_mem_nil _)

/-- C3 witness: updating the demo recipe with options whose name differs
returns a recipe with the fetched id `r1` and the fetched name
`Pancakes`. -/
theorem C3_update_recipe_preserves_identity_witness :
    (demoMainClient.inner.svc.get_recipe_by_idR "r1" = .ok demoRsRecipe) ∧
    ((Main.AnyListClient.update_recipe demoMainClient "r1" demoOptions).1
      = .ok demoUpdatedRecipe) ∧
    (demoUpdatedRecipe.id = demoRsRecipe.id ∧
     demoUpdatedRecipe.name = demoRsRecipe.name ∧
     (Main.AnyListClient.update_recipe demoMainClient "r1" demoOptions).2.head?
       = some (SvcCall.get_recipe_by_id "r1") ∧
     ∀ b, SvcCall.saveRecipe b ∈
        (Main.AnyListClient.update_recipe demoMainClient "r1" demoOptions).2 →
       b.id = some demoRsRecipe.id ∧ b.name = demoRsRecipe.name) :=
  ⟨rfl, rfl,
   C3_update_recipe_preserves_identity demoMainClient "r1" demoOptions
     demoRsRecipe demoUpdatedRecipe rfl rfl⟩

/-- C4: in `update_recipe`, every field of the options other than the name
replaces the corresponding field of the existing recipe, and every optional
absent in the options is cleared in the returned (and written) recipe
rather than left at its previous value. -/
theorem C4_update_recipe_replaces_and_clears (self : Main.AnyListClient)
    (recipe_id : String) (options : Main.CreateRecipeOptions)
    (existing : RsRecipe) (r : Main.Recipe)
    (hget : self.inner.svc.get_recipe_by_idR recipe_id = .ok existing)
    (hok : (self.update_recipe recipe_id options).1 = .ok r) :
    r.ingredients
      = (options.ingredients.map Main.IngredientInput.toRs).map Main.Ingredient.fromRs ∧
    r.preparation_steps = options.preparation_steps ∧
    r.note = options.note ∧
    r.source_name = options.source_name ∧
    r.source_url = options.source_url ∧
    r.servings = options.servings ∧
    r.prep_time = options.prep_time ∧
    r.cook_time = options.cook_time ∧
    r.rating = options.rating ∧
    r.nutritional_info = options.nutritional_info ∧
    r.photo_id = options.photo_id := by
  have hr := update_recipe_ok_eq self recipe_id options existing r hget hok
  subst hr
  rw [updateBuilder_eq]
  exact ⟨rfl, rfl, rfl, rfl, rfl, rfl, rfl, rfl, rfl, rfl, rfl⟩

/-- C4 witness: the demo update returns the options' fields with every
absent optional cleared, not the existing recipe's old values. -/
theorem C4_update_recipe_replaces_and_clears_witness :
    (demoMainClient.inner.svc.get_recipe_by_idR "r1" = .ok demoRsRecipe) ∧
    ((Main.AnyListClient.update_recipe demoMainClient "r1" demoOptions).1
      = .ok demoUpdatedRecipe) ∧
    (demoUpdatedRecipe.ingredients
       = (demoOptions.ingredients.map Main.IngredientInput.toRs).map Main.Ingredient.fromRs ∧
     demoUpdatedRecipe.preparation_steps = demoOptions.preparation_steps ∧
     demoUpdatedRecipe.note = demoOptions.note ∧
     demoUpdatedRecipe.source_name = demoOptions.source_name ∧
     demoUpdatedRecipe.source_url = demoOptions.source_url ∧
     demoUpdatedRecipe.servings = demoOptions.servings ∧
     demoUpdatedRecipe.prep_time = demoOptions.prep_time ∧
     demoUpdatedRecipe.cook_time = demoOptions.cook_time ∧
     demoUpdatedRecipe.rating = demoOptions.rating ∧
     demoUpdatedRecipe.nutritional_info = demoOptions.nutritional_info ∧
     demoUpdatedRecipe.photo_id = demoOptions.photo_id) :=
  ⟨rfl, rfl,
   C4_update_recipe_replaces_and_clears demoMainClient "r1" demoOptions
     demoRsRecipe demoUpdatedRecipe rfl rfl⟩

/-- C7: for every List returned by `get_lists()`, every item has
`item.list_id == L.id`, provided the Service's lists satisfy the same
invariant (which the spec says the Service enforces): the conversion to the
boundary `List` copies both ids verbatim and so preserves the relationship
for every embedded item. -/
theorem C7_get_lists_item_list_id (self : Native.AnyListClient)
    (rsLists : List RsList)
    (hresp : self.inner.svc.get_listsR = .ok rsLists)
    (hinv : ∀ rl ∈ rsLists, ∀ it ∈ rl.items, it.list_id = rl.id) :
    ∃ ls, (self.get_lists).1 = .ok ls ∧
      ∀ L ∈ ls, ∀ item ∈ L.items, item.list_id = L.id := by
  refine ⟨rsLists.map Native.JsList.fromRs, ?_, ?_⟩
  · unfold Native.AnyListClient.get_lists Native.nconv
    rw [hresp]
  · intro L hL item hit
    simp only [List.mem_map] at hL
    obtain ⟨rl, hrl, rfl⟩ := hL
    simp only [Native.JsList.fromRs, List.mem_map] at hit
    obtain ⟨it, hits, rfl⟩ := hit
    simpa [Native.ListItem.fromRs, Native.JsList.fromRs] using hinv rl hrl it hits

/-- C7 witness: on the demo Service the one returned list satisfies the
invariant. -/
theorem C7_get_lists_item_list_id_witness :
    (demoNativeClient.inner.svc.get_listsR = .ok [demoRsList]) ∧
    (∀ rl ∈ [demoRsList], ∀ it ∈ rl.items, it.list_id = rl.id) ∧
    (∃ ls, (Native.AnyListClient.get_lists demoNativeClient).1 = .ok ls ∧
      ∀ L ∈ ls, ∀ item ∈ L.items, item.list_id = L.id) :=
  ⟨rfl, by decide,
   C7_get_lists_item_list_id demoNativeClient [demoRsList] rfl (by decide)⟩

/-- C9 counterexample: the note/details field of `ListItem` is NOT modelled
as an optional at the boundary — in both drafts it is a required string
(the field tables transcribe the struct declarations), and the conversion
copies the Service's `details()` string verbatim, so no "absent" signal
distinct from the empty string exists for it. -/
theorem C9_counterexample :
    mainListItemFieldOptional.lookup "note" = some false ∧
    nativeListItemFieldOptional.lookup "details" = some false ∧
    (Main.ListItem.fromRs demoRsItem).note = demoRsItem.details ∧
    (Native.ListItem.fromRs demoRsItem).details = demoRsItem.details :=
  ⟨rfl, rfl, rfl, rfl⟩

/-- C9 as amended: every field the Service may omit (the `Option`-typed
accessors of the Service records) is an optional at the boundary, the
conversions preserve the `none`/`some ""` distinction (so missing and empty
are distinguishable) — with the exception of `ListItem`'s note/details
field, which is a required string at the boundary, copied verbatim from the
Service's non-optional `details()`. -/
theorem C9_optionality (it : RsListItem) (f : RsFavouriteItem)
    (ing : RsIngredient) (rc : RsRecipe) (ev : RsMealPlanEvent)
    (ic : RsICalendarInfo) (cat : RsCategory) (fl : RsFavouritesList) :
    (Native.ListItem.fromRs it).quantity = it.quantity ∧
    (Native.ListItem.fromRs it).category = it.category ∧
    (Native.ListItem.fromRs it).user_id = it.user_id ∧
    (Native.ListItem.fromRs it).product_upc = it.product_upc ∧
    (Main.ListItem.fromRs it).quantity = it.quantity ∧
    (Main.ListItem.fromRs it).category = it.category ∧
    (Main.FavouriteItem.fromRs f).quantity = f.quantity ∧
    (Main.FavouriteItem.fromRs f).details = f.details ∧
    (Main.FavouriteItem.fromRs f).category = f.category ∧
    (Main.Ingredient.fromRs ing).quantity = ing.quantity ∧
    (Main.Ingredient.fromRs ing).note = ing.note ∧
    (Main.Recipe.fromRs rc).note = rc.note ∧
    (Main.Recipe.fromRs rc).source_name = rc.source_name ∧
    (Main.Recipe.fromRs rc).photo_id = rc.photo_id ∧
    (Main.MealPlanEvent.fromRs ev).title = ev.title ∧
    (Main.MealPlanEvent.fromRs ev).details = ev.details ∧
    (Main.ICalendarInfo.fromRs ic).url = ic.url ∧
    (Main.Category.fromRs cat).icon = cat.icon ∧
    (Main.FavouritesList.fromRs fl).shopping_list_id = fl.shopping_list_id ∧
    (Main.FavouriteItem.fromRs { f with details := none }).details
      ≠ (Main.FavouriteItem.fromRs { f with details := some "" }).details ∧
    (Main.ListItem.fromRs it).note = it.details ∧
    mainListItemFieldOptional.lookup "note" = some false :=
  ⟨rfl, rfl, rfl, rfl, rfl, rfl, rfl, rfl, rfl, rfl, rfl, rfl, rfl, rfl, rfl,
   rfl, rfl, rfl, rfl, by simp [Main.FavouriteItem.fromRs], rfl, rfl⟩

/-- The `update_recipe` trace length: one call when the fetch fails, two
(fetch then save) when it succeeds. -/
theorem update_recipe_trace_len (self : Main.AnyListClient) (recipe_id : String)
    (options : Main.CreateRecipeOptions) :
    (self.update_recipe recipe_id options).2.length
      = match self.inner.svc.get_recipe_by_idR recipe_id with
        | .ok _ => 2
        | .error _ => 1 := by
  unfold Main.AnyListClient.update_recipe
  cases self.inner.svc.get_recipe_by_idR recipe_id <;> rfl

/-- The `add_favourite_to_shopping_list` trace length: one call when the
read fails or the favourite is absent, two when it is found and promoted. -/
theorem add_fav_trace_len (self : Main.AnyListClient) (flid fid slid : String) :
    (self.add_favourite_to_shopping_list flid fid slid).2.length
      = match self.inner.svc.get_favourites_for_listR flid with
        | .error _ => 1
        | .ok fl =>
          match fl.items.find? (fun f => f.id == fid) with
          | none => 1
          | some _ => 2 := by
  unfold Main.AnyListClient.add_favourite_to_shopping_list
  cases self.inner.svc.get_favourites_for_listR flid with
  | error e => rfl
  | ok fl => cases hf : fl.items.find? (fun f => f.id == fid) <;> simp [hf]

/-- C5 counterexample: on the demo Service, `update_recipe` performs two
Service calls (a fetch and a save), not one, and the successful
`add_favourite_to_shopping_list` likewise performs two (a read and a
promotion). -/
theorem C5_counterexample :
    (Main.AnyListClient.update_recipe demoMainClient "r1" demoOptions).2.length = 2 ∧
    (Main.AnyListClient.update_recipe demoMainClient "r1" demoOptions).2.length ≠ 1 ∧
    (Main.AnyListClient.add_favourite_to_shopping_list demoMainClient
      "fl1" "f1" "l1").2.length = 2 ∧
    (Main.AnyListClient.add_favourite_to_shopping_list demoMainClient
      "fl1" "f1" "l1").2.length ≠ 1 :=
  ⟨rfl, by decide, rfl, by decide⟩

/-- C5 as amended: every asynchronous facade operation performs exactly one
Service call — except `update_recipe` and `add_favourite_to_shopping_list`,
which perform a read followed by a dependent second call (two suspension
points) on the success path and only the read otherwise.  Argument
marshalling and result conversion never add Service calls. -/
theorem C5_one_service_call_per_operation (self : Main.AnyListClient)
    (ns : Native.AnyListClient) (svc : Service) (s1 s2 s3 s4 : String)
    (oq od oc : Option String) (ids : List String)
    (opts : Main.CreateRecipeOptions) (sf : Option Float) (data : List UInt8) :
    (Main.AnyListClient.login svc s1 s2).2.length = 1 ∧
    (self.get_lists).2.length = 1 ∧
    (self.create_list s1).2.length = 1 ∧
    (self.get_list_by_id s1).2.length = 1 ∧
    (self.get_list_by_name s1).2.length = 1 ∧
    (self.rename_list s1 s2).2.length = 1 ∧
    (self.add_item s1 s2).2.length = 1 ∧
    (self.add_item_with_details s1 s2 oq od oc).2.length = 1 ∧
    (self.delete_item s1 s2).2.length = 1 ∧
    (self.cross_off_item s1 s2).2.length = 1 ∧
    (self.uncheck_item s1 s2).2.length = 1 ∧
    (self.update_item s1 s2 s3 oq od oc).2.length = 1 ∧
    (self.bulk_delete_items s1 ids).2.length = 1 ∧
    (self.delete_all_crossed_off_items s1).2.length = 1 ∧
    (self.get_recipes).2.length = 1 ∧
    (self.get_recipe_by_id s1).2.length = 1 ∧
    (self.get_recipe_by_name s1).2.length = 1 ∧
    (self.create_recipe opts).2.length = 1 ∧
    (self.add_recipe_to_list s1 s2 sf).2.length = 1 ∧
    (self.delete_recipe s1).2.length = 1 ∧
    (self.delete_list s1).2.length = 1 ∧
    (self.upload_photo data s1).2.length = 1 ∧
    (self.create_category s1 s2 s3).2.length = 1 ∧
    (self.delete_category s1 s2).2.length = 1 ∧
    (self.rename_category s1 s2 s3 s4).2.length = 1 ∧
    (self.get_stores_for_list s1).2.length = 1 ∧
    (self.create_store s1 s2).2.length = 1 ∧
    (self.update_store s1 s2 s3).2.length = 1 ∧
    (self.get_store_filters_for_list s1).2.length = 1 ∧
    (self.delete_store s1 s2).2.length = 1 ∧
    (self.get_favourites).2.length = 1 ∧
    (self.get_favourites_lists).2.length = 1 ∧
    (self.get_favourites_for_list s1).2.length = 1 ∧
    (self.add_favourite s1 oc).2.length = 1 ∧
    (self.add_favourite_to_list s1 s2 oc).2.length = 1 ∧
    (self.remove_favourite s1 s2).2.length = 1 ∧
    (self.get_meal_plan_events s1 s2).2.length = 1 ∧
    (self.create_meal_plan_event s1 s2 oq od oc).2.length = 1 ∧
    (self.update_meal_plan_event s1 s2 s3 oq od oc).2.length = 1 ∧
    (self.delete_meal_plan_event s1 s2).2.length = 1 ∧
    (self.add_meal_plan_ingredients_to_list s1 s2 s3).2.length = 1 ∧
    (self.enable_icalendar).2.length = 1 ∧
    (self.disable_icalendar).2.length = 1 ∧
    (self.get_icalendar_url).2.length = 1 ∧
    (self.get_recipe_collections).2.length = 1 ∧
    (self.create_recipe_collection s1).2.length = 1 ∧
    (self.delete_recipe_collection s1).2.length = 1 ∧
    (self.add_recipe_to_collection s1 s2).2.length = 1 ∧
    (self.remove_recipe_from_collection s1 s2).2.length = 1 ∧
    (Native.AnyListClient.login svc s1 s2).2.length = 1 ∧
    (ns.get_lists).2.length = 1 ∧
    (ns.create_list s1).2.length = 1 ∧
    (ns.add_item s1 s2).2.length = 1 ∧
    (ns.add_item_with_details s1 s2 oq od oc).2.length = 1 ∧
    ((self.update_recipe s1 opts).2.length
      = match self.inner.svc.get_recipe_by_idR s1 with
        | .ok _ => 2
        | .error _ => 1) ∧
    ((self.add_favourite_to_shopping_list s1 s2 s3).2.length
      = match self.inner.svc.get_favourites_for_listR s1 with
        | .error _ => 1
        | .ok fl =>
          match fl.items.find? (fun f => f.id == s2) with
          | none => 1
          | some _ => 2) := by
  repeat' apply And.intro
  all_goals first
    | rfl
    | exact update_recipe_trace_len self s1 opts
    | exact add_fav_trace_len self s1 s2 s3

/-- C6: for every operation and every Service failure `e`, the operation
fails with the single `GenericFailure` error kind whose message is the
Service's rendered diagnostic verbatim — the broad draft adds no prefix at
all, the native draft only its fixed disambiguation markers ("Login
failed: ", "Failed to get lists: ", ...).  No failure is recovered,
retried, or mapped to a distinct kind. -/
theorem C6_uniform_error_mapping (e : AnyListError) (s1 s2 s3 s4 : String)
    (oq od oc : Option String) (ids : List String)
    (opts : Main.CreateRecipeOptions) (sf : Option Float) (data : List UInt8) :
    (Main.AnyListClient.login (Service.failing e) s1 s2).1
      = .error ⟨Status.GenericFailure, errFormat e⟩ ∧
    ((failingMainClient e).get_lists).1
      = .error ⟨Status.GenericFailure, errFormat e⟩ ∧
    ((failingMainClient e).create_list s1).1
      = .error ⟨Status.GenericFailure, errFormat e⟩ ∧
    ((failingMainClient e).get_list_by_id s1).1
      = .error ⟨Status.GenericFailure, errFormat e⟩ ∧
    ((failingMainClient e).get_list_by_name s1).1
      = .error ⟨Status.GenericFailure, errFormat e⟩ ∧
    ((failingMainClient e).rename_list s1 s2).1
      = .error ⟨Status.GenericFailure, errFormat e⟩ ∧
    ((failingMainClient e).add_item s1 s2).1
      = .error ⟨Status.GenericFailure, errFormat e⟩ ∧
    ((failingMainClient e).add_item_with_details s1 s2 oq od oc).1
      = .error ⟨Status.GenericFailure, errFormat e⟩ ∧
    ((failingMainClient e).delete_item s1 s2).1
      = .error ⟨Status.GenericFailure, errFormat e⟩ ∧
    ((failingMainClient e).cross_off_item s1 s2).1
      = .error ⟨Status.GenericFailure, errFormat e⟩ ∧
    ((failingMainClient e).uncheck_item s1 s2).1
      = .error ⟨Status.GenericFailure, errFormat e⟩ ∧
    ((failingMainClient e).update_item s1 s2 s3 oq od oc).1
      = .error ⟨Status.GenericFailure, errFormat e⟩ ∧
    ((failingMainClient e).bulk_delete_items s1 ids).1
      = .error ⟨Status.GenericFailure, errFormat e⟩ ∧
    ((failingMainClient e).delete_all_crossed_off_items s1).1
      = .error ⟨Status.GenericFailure, errFormat e⟩ ∧
    ((failingMainClient e).get_recipes).1
      = .error ⟨Status.GenericFailure, errFormat e⟩ ∧
    ((failingMainClient e).get_recipe_by_id s1).1
      = .error ⟨Status.GenericFailure, errFormat e⟩ ∧
    ((failingMainClient e).get_recipe_by_name s1).1
      = .error ⟨Status.GenericFailure, errFormat e⟩ ∧
    ((failingMainClient e).create_recipe opts).1
      = .error ⟨Status.GenericFailure, errFormat e⟩ ∧
    ((failingMainClient e).add_recipe_to_list s1 s2 sf).1
      = .error ⟨Status.GenericFailure, errFormat e⟩ ∧
    ((failingMainClient e).update_recipe s1 opts).1
      = .error ⟨Status.GenericFailure, errFormat e⟩ ∧
    ((failingMainClient e).delete_recipe s1).1
      = .error ⟨Status.GenericFailure, errFormat e⟩ ∧
    ((failingMainClient e).delete_list s1).1
      = .error ⟨Status.GenericFailure, errFormat e⟩ ∧
    ((failingMainClient e).upload_photo data s1).1
      = .error ⟨Status.GenericFailure, errFormat e⟩ ∧
    ((failingMainClient e).create_category s1 s2 s3).1
      = .error ⟨Status.GenericFailure, errFormat e⟩ ∧
    ((failingMainClient e).delete_category s1 s2).1
      = .error ⟨Status.GenericFailure, errFormat e⟩ ∧
    ((failingMainClient e).rename_category s1 s2 s3 s4).1
      = .error ⟨Status.GenericFailure, errFormat e⟩ ∧
    ((failingMainClient e).get_stores_for_list s1).1
      = .error ⟨Status.GenericFailure, errFormat e⟩ ∧
    ((failingMainClient e).create_store s1 s2).1
      = .error ⟨Status.GenericFailure, errFormat e⟩ ∧
    ((failingMainClient e).update_store s1 s2 s3).1
      = .error ⟨Status.GenericFailure, errFormat e⟩ ∧
    ((failingMainClient e).get_store_filters_for_list s1).1
      = .error ⟨Status.GenericFailure, errFormat e⟩ ∧
    ((failingMainClient e).delete_store s1 s2).1
      = .error ⟨Status.GenericFailure, errFormat e⟩ ∧
    ((failingMainClient e).get_favourites).1
      = .error ⟨Status.GenericFailure, errFormat e⟩ ∧
    ((failingMainClient e).get_favourites_lists).1
      = .error ⟨Status.GenericFailure, errFormat e⟩ ∧
    ((failingMainClient e).get_favourites_for_list s1).1
      = .error ⟨Status.GenericFailure, errFormat e⟩ ∧
    ((failingMainClient e).add_favourite s1 oc).1
      = .error ⟨Status.GenericFailure, errFormat e⟩ ∧
    ((failingMainClient e).add_favourite_to_list s1 s2 oc).1
      = .error ⟨Status.GenericFailure, errFormat e⟩ ∧
    ((failingMainClient e).remove_favourite s1 s2).1
      = .error ⟨Status.GenericFailure, errFormat e⟩ ∧
    ((failingMainClient e).add_favourite_to_shopping_list s1 s2 s3).1
      = .error ⟨Status.GenericFailure, errFormat e⟩ ∧
    ((failingMainClient e).get_meal_plan_events s1 s2).1
      = .error ⟨Status.GenericFailure, errFormat e⟩ ∧
    ((failingMainClient e).create_meal_plan_event s1 s2 oq od oc).1
      = .error ⟨Status.GenericFailure, errFormat e⟩ ∧
    ((failingMainClient e).update_meal_plan_event s1 s2 s3 oq od oc).1
      = .error ⟨Status.GenericFailure, errFormat e⟩ ∧
    ((failingMainClient e).delete_meal_plan_event s1 s2).1
      = .error ⟨Status.GenericFailure, errFormat e⟩ ∧
    ((failingMainClient e).add_meal_plan_ingredients_to_list s1 s2 s3).1
      = .error ⟨Status.GenericFailure, errFormat e⟩ ∧
    ((failingMainClient e).enable_icalendar).1
      = .error ⟨Status.GenericFailure, errFormat e⟩ ∧
    ((failingMainClient e).disable_icalendar).1
      = .error ⟨Status.GenericFailure, errFormat e⟩ ∧
    ((failingMainClient e).get_icalendar_url).1
      = .error ⟨Status.GenericFailure, errFormat e⟩ ∧
    ((failingMainClient e).get_recipe_collections).1
      = .error ⟨Status.GenericFailure, errFormat e⟩ ∧
    ((failingMainClient e).create_recipe_collection s1).1
      = .error ⟨Status.GenericFailure, errFormat e⟩ ∧
    ((failingMainClient e).delete_recipe_collection s1).1
      = .error ⟨Status.GenericFailure, errFormat e⟩ ∧
    ((failingMainClient e).add_recipe_to_collection s1 s2).1
      = .error ⟨Status.GenericFailure, errFormat e⟩ ∧
    ((failingMainClient e).remove_recipe_from_collection s1 s2).1
      = .error ⟨Status.GenericFailure, errFormat e⟩ ∧
    (Native.AnyListClient.login (Service.failing e) s1 s2).1
      = .error ⟨Status.GenericFailure, "Login failed: " ++ errFormat e⟩ ∧
    ((failingNativeClient e).get_lists).1
      = .error ⟨Status.GenericFailure, "Failed to get lists: " ++ errFormat e⟩ ∧
    ((failingNativeClient e).create_list s1).1
      = .error ⟨Status.GenericFailure, "Failed to create list: " ++ errFormat e⟩ ∧
    ((failingNativeClient e).add_item s1 s2).1
      = .error ⟨Status.GenericFailure, "Failed to add item: " ++ errFormat e⟩ ∧
    ((failingNativeClient e).add_item_with_details s1 s2 oq od oc).1
      = .error ⟨Status.GenericFailure, "Failed to add item: " ++ errFormat e⟩ := by
  repeat' apply And.intro
  all_goals rfl
